import Mathlib

/-!
Verification development for the mesh/connectivity generator of the
OpenSees building-model repository (`geometry.py`, `enhanced_geometry.py`,
`input_data.py`, `main.py`).  Python floats are modelled as rationals,
the stateful OpenSees domain is modelled by explicit lists threaded
through the definitions, and fallible steps return `Option`/`Except`.
-/

namespace Tesis

/-- Cumulative sum of the first `n` entries of a list of lengths.  This is
the accumulated coordinate the Python loops compute by summing
`bay_widths[vano]` for `vano in range(n)`. -/
def sumTake (l : List ℚ) (n : ℕ) : ℚ := (l.take n).sum

/-- Pair every list entry with a tag drawn from a counter that starts at
`n` and increases by one per entry: the Lean form of the Python pattern
`tag = n; for x in ...: emit (tag, x); tag += 1`. -/
def tagged {α : Type} (n : ℕ) : List α → List (ℕ × α)
  | [] => []
  | a :: l => (n, a) :: tagged (n + 1) l

/-- Position of the first occurrence of `a` in `l`, if any. -/
def idxOf? {α : Type} [DecidableEq α] : List α → α → Option ℕ
  | [], _ => none
  | b :: l, a => if b = a then some 0 else (idxOf? l a).map (· + 1)

/-- The geometric configuration consumed by the generators
(`geometry_data` dictionary in the source). -/
structure GeometryData where
  num_bay_x : ℕ
  num_bay_y : ℕ
  num_floor : ℕ
  bay_widths_x : List ℚ
  bay_widths_y : List ℚ
  story_heights : List ℚ
deriving DecidableEq

/-- The bay-width and story-height arrays have exactly the declared
lengths, as `validate_geometry_data` enforces. -/
def GeometryData.consistent (gd : GeometryData) : Prop :=
  gd.bay_widths_x.length = gd.num_bay_x ∧
  gd.bay_widths_y.length = gd.num_bay_y ∧
  gd.story_heights.length = gd.num_floor

instance (gd : GeometryData) : Decidable gd.consistent := by
  unfold GeometryData.consistent; infer_instance

/-- All bay widths and story heights are positive (the interactive input
layer only accepts positive values). -/
def GeometryData.positive (gd : GeometryData) : Prop :=
  (∀ w ∈ gd.bay_widths_x, 0 < w) ∧ (∀ w ∈ gd.bay_widths_y, 0 < w) ∧
  (∀ h ∈ gd.story_heights, 0 < h)

instance (gd : GeometryData) : Decidable gd.positive := by
  unfold GeometryData.positive; infer_instance

/-! ## Standard generator (`geometry.py`) -/

/-- `get_node_tag_from_indices` of `geometry.py`: closed-form tag of the
node at floor `floor_idx`, row `bay_y_idx`, column `bay_x_idx`. -/
def get_node_tag_from_indices (floor_idx bay_y_idx bay_x_idx num_bay_x num_bay_y : ℕ) : ℕ :=
  let nodes_per_level := (num_bay_x + 1) * (num_bay_y + 1)
  1 + floor_idx * nodes_per_level + bay_y_idx * (num_bay_x + 1) + bay_x_idx

/-- Index triples `(k, j, i)` in the exact iteration order of the loops of
`create_nodes`: level `k` outermost, then row `j`, then column `i`. -/
def node_triples (gd : GeometryData) : List (ℕ × ℕ × ℕ) :=
  (List.range (gd.num_floor + 1)).flatMap fun k =>
    (List.range (gd.num_bay_y + 1)).flatMap fun j =>
      (List.range (gd.num_bay_x + 1)).map fun i => (k, j, i)

/-- A node created by `create_nodes`: its tag, its index triple and its
coordinates, plus the `fixed` flag set at the base level. -/
structure SNode where
  tag : ℕ
  ix : ℕ
  iy : ℕ
  iz : ℕ
  x : ℚ
  y : ℚ
  z : ℚ
  fixed : Bool
deriving DecidableEq

/-- `create_nodes` of `geometry.py`: one node per index triple, tags drawn
sequentially from 1, coordinates accumulated from the width/height lists,
all six degrees of freedom fixed at level 0. -/
def create_nodes (gd : GeometryData) : List SNode :=
  (tagged 1 (node_triples gd)).map fun p =>
    { tag := p.1, ix := p.2.2.2, iy := p.2.2.1, iz := p.2.1,
      x := sumTake gd.bay_widths_x p.2.2.2,
      y := sumTake gd.bay_widths_y p.2.2.1,
      z := sumTake gd.story_heights p.2.1,
      fixed := p.2.1 == 0 }

/-- `ops.nodeCoord` against the domain left by `create_nodes`. -/
def nodeCoordStd (gd : GeometryData) (t : ℕ) : Option (ℚ × ℚ × ℚ) :=
  ((create_nodes gd).find? fun nd => nd.tag == t).map fun nd => (nd.x, nd.y, nd.z)

/-- A frame element: tag and the two endpoint node tags. -/
structure Elem where
  tag : ℕ
  n1 : ℕ
  n2 : ℕ
deriving DecidableEq

/-- Triples `(k, i, j)` in the iteration order of `create_columns`:
story `k`, then column line `i`, then row `j`. -/
def column_triples (gd : GeometryData) : List (ℕ × ℕ × ℕ) :=
  (List.range gd.num_floor).flatMap fun k =>
    (List.range (gd.num_bay_x + 1)).flatMap fun i =>
      (List.range (gd.num_bay_y + 1)).map fun j => (k, i, j)

/-- `create_columns` of `geometry.py`: element tags start at 1 (their own
counter, separate from node tags); endpoints are computed arithmetically
from the level size, with no existence check. -/
def create_columns (gd : GeometryData) : List Elem :=
  let npl := (gd.num_bay_x + 1) * (gd.num_bay_y + 1)
  (tagged 1 (column_triples gd)).map fun p =>
    let n1 := 1 + p.2.1 * npl + p.2.2.2 * (gd.num_bay_x + 1) + p.2.2.1
    { tag := p.1, n1 := n1, n2 := n1 + npl }

/-- A beam candidate accepted by the orthogonality check of
`create_beams`; `dirX` records which loop (X or Y direction) emitted it. -/
structure BeamPair where
  n1 : ℕ
  n2 : ℕ
  dirX : Bool
deriving DecidableEq

/-- The candidate index triples `(k, j, i)` of the X-direction loop of
`create_beams`: levels 1..num_floor, rows 0..num_bay_y, columns
0..num_bay_x-1. -/
def beamX_cands (gd : GeometryData) : List (ℕ × ℕ × ℕ) :=
  (List.range' 1 gd.num_floor).flatMap fun k =>
    (List.range (gd.num_bay_y + 1)).flatMap fun j =>
      (List.range gd.num_bay_x).map fun i => (k, j, i)

/-- Resolution of one X-direction candidate of `create_beams`: the pair
is kept only when both tags are in range and the coordinates of the two
nodes agree in Y and Z within 0.001 (`abs(...) < 0.001` in the source). -/
def beamX_accept (gd : GeometryData) (total_nodes : ℕ) (p : ℕ × ℕ × ℕ) : Option BeamPair :=
  let npl := (gd.num_bay_x + 1) * (gd.num_bay_y + 1)
  let t1 := 1 + p.1 * npl + p.2.1 * (gd.num_bay_x + 1) + p.2.2
  let t2 := t1 + 1
  if t1 ≤ total_nodes ∧ t2 ≤ total_nodes then
    match nodeCoordStd gd t1, nodeCoordStd gd t2 with
    | some c1, some c2 =>
        if |c1.2.1 - c2.2.1| < 1 / 1000 ∧ |c1.2.2 - c2.2.2| < 1 / 1000 then
          some { n1 := t1, n2 := t2, dirX := true }
        else none
    | _, _ => none
  else none

/-- The beams the X-direction loop of `create_beams` actually creates. -/
def beamX_accepted (gd : GeometryData) (total_nodes : ℕ) : List BeamPair :=
  (beamX_cands gd).filterMap (beamX_accept gd total_nodes)

/-- The candidate index triples `(k, i, j)` of the Y-direction loop of
`create_beams`: levels 1..num_floor, column lines 0..num_bay_x, rows
0..num_bay_y-1. -/
def beamY_cands (gd : GeometryData) : List (ℕ × ℕ × ℕ) :=
  (List.range' 1 gd.num_floor).flatMap fun k =>
    (List.range (gd.num_bay_x + 1)).flatMap fun i =>
      (List.range gd.num_bay_y).map fun j => (k, i, j)

/-- Resolution of one Y-direction candidate of `create_beams`: the pair
is kept only when both tags are in range and the coordinates of the two
nodes agree in X and Z within 0.001. -/
def beamY_accept (gd : GeometryData) (total_nodes : ℕ) (p : ℕ × ℕ × ℕ) : Option BeamPair :=
  let npl := (gd.num_bay_x + 1) * (gd.num_bay_y + 1)
  let t1 := 1 + p.1 * npl + p.2.2 * (gd.num_bay_x + 1) + p.2.1
  let t2 := t1 + (gd.num_bay_x + 1)
  if t1 ≤ total_nodes ∧ t2 ≤ total_nodes then
    match nodeCoordStd gd t1, nodeCoordStd gd t2 with
    | some c1, some c2 =>
        if |c1.1 - c2.1| < 1 / 1000 ∧ |c1.2.2 - c2.2.2| < 1 / 1000 then
          some { n1 := t1, n2 := t2, dirX := false }
        else none
    | _, _ => none
  else none

/-- The beams the Y-direction loop of `create_beams` actually creates. -/
def beamY_accepted (gd : GeometryData) (total_nodes : ℕ) : List BeamPair :=
  (beamY_cands gd).filterMap (beamY_accept gd total_nodes)

/-- A beam element produced by `create_beams`. -/
structure SBeam where
  tag : ℕ
  n1 : ℕ
  n2 : ℕ
  dirX : Bool
deriving DecidableEq

/-- `create_beams` of `geometry.py`: the X loop runs first, then the Y
loop, sharing one element-tag counter that starts at `start_ele_tag` and
advances only when an element is actually created. -/
def create_beams (gd : GeometryData) (start_ele_tag total_nodes : ℕ) : List SBeam :=
  (tagged start_ele_tag
    (beamX_accepted gd total_nodes ++ beamY_accepted gd total_nodes)).map fun p =>
    { tag := p.1, n1 := p.2.n1, n2 := p.2.n2, dirX := p.2.dirX }

/-! ## Enhanced generator (`enhanced_geometry.py`) -/

/-- One side of the cantilever configuration (`cantilever_config['front']`
etc.): the dictionary is either absent (`None`) or carries a length. -/
structure CantSide where
  length : ℚ
deriving DecidableEq

/-- The `cantilever_config` dictionary with its three optional sides. -/
structure CantileverConfig where
  front : Option CantSide
  right : Option CantSide
  left : Option CantSide
deriving DecidableEq

/-- The row-index offset introduced by an active left cantilever
(`1 if cantilever_config['left'] else 0`). -/
def CantileverConfig.yOffset (cc : CantileverConfig) : ℕ :=
  if cc.left.isSome then 1 else 0

/-- `x_coords` of `generate_enhanced_nodes`: cumulative X coordinates of
the core structure, `[0, w0, w0+w1, ...]`. -/
def x_coords (gd : GeometryData) : List ℚ :=
  (List.range (gd.bay_widths_x.length + 1)).map fun n => sumTake gd.bay_widths_x n

/-- `y_coords` of `generate_enhanced_nodes`. -/
def y_coords (gd : GeometryData) : List ℚ :=
  (List.range (gd.bay_widths_y.length + 1)).map fun n => sumTake gd.bay_widths_y n

/-- `z_coords` of `generate_enhanced_nodes`. -/
def z_coords (gd : GeometryData) : List ℚ :=
  (List.range (gd.story_heights.length + 1)).map fun n => sumTake gd.story_heights n

/-- `extended_x_coords`: the core X coordinates with the front-cantilever
coordinate appended after the last one when a front cantilever is active. -/
def extended_x_coords (gd : GeometryData) (cc : CantileverConfig) : List ℚ :=
  x_coords gd ++
    (match cc.front with
     | some f => [gd.bay_widths_x.sum + f.length]
     | none => [])

/-- `extended_y_coords`: the core Y coordinates with the left-cantilever
coordinate inserted in front (at `0 - left_length`) and the
right-cantilever coordinate appended after the last one. -/
def extended_y_coords (gd : GeometryData) (cc : CantileverConfig) : List ℚ :=
  (match cc.left with
   | some lf => [0 - lf.length]
   | none => []) ++
  y_coords gd ++
  (match cc.right with
   | some r => [gd.bay_widths_y.sum + r.length]
   | none => [])

/-- The node-existence rule of `generate_enhanced_nodes` for index
`(i, j, k)`.  `nx`/`ny` are `len(x_coords)`/`len(y_coords)` and
`nex`/`ney` are `len(extended_x_coords)`/`len(extended_y_coords)`.
The `k = 1` and `k ≥ 2` branches are duplicated exactly as in the
source (they happen to coincide). -/
def should_create_node (cc : CantileverConfig) (nx ny nex ney : ℕ) (i j k : ℕ) : Bool :=
  let off : ℤ := if cc.left.isSome then 1 else 0
  let eff : ℤ := (j : ℤ) - off
  if k == 0 then
    !(decide (i ≥ nx) || decide (eff ≥ (ny : ℤ)) || decide (eff < 0))
  else if k == 1 then
    if cc.left.isSome && (j == 0) then decide (i < nx)
    else if cc.front.isSome && (i == nex - 1) then decide (eff < (ny : ℤ))
    else if cc.right.isSome && (j == ney - 1) then decide (i < nx)
    else decide (i < nx) && decide (eff < (ny : ℤ))
  else
    if cc.left.isSome && (j == 0) then decide (i < nx)
    else if cc.front.isSome && (i == nex - 1) then decide (eff < (ny : ℤ))
    else if cc.right.isSome && (j == ney - 1) then decide (i < nx)
    else decide (i < nx) && decide (eff < (ny : ℤ))

/-- The keys `(i, j, k)` of `node_mapping` in the creation order of
`generate_enhanced_nodes`: level `k` outermost, then `i`, then `j`
(this order differs from the standard generator). -/
def enhanced_node_keys (gd : GeometryData) (cc : CantileverConfig) : List (ℕ × ℕ × ℕ) :=
  let nx := (x_coords gd).length
  let ny := (y_coords gd).length
  let nex := (extended_x_coords gd cc).length
  let ney := (extended_y_coords gd cc).length
  (List.range (z_coords gd).length).flatMap fun k =>
    (List.range nex).flatMap fun i =>
      (List.range ney).filterMap fun j =>
        if should_create_node cc nx ny nex ney i j k then some (i, j, k) else none

/-- `node_mapping` built by `generate_enhanced_nodes`: node ids are
assigned sequentially from 1 in creation order. -/
def node_mapping (gd : GeometryData) (cc : CantileverConfig) (key : ℕ × ℕ × ℕ) : Option ℕ :=
  (idxOf? (enhanced_node_keys gd cc) key).map (· + 1)

/-- Coordinates of the enhanced node with key `(i, j, k)`. -/
def enh_key_coord (gd : GeometryData) (cc : CantileverConfig) (key : ℕ × ℕ × ℕ) : ℚ × ℚ × ℚ :=
  ((extended_x_coords gd cc).getD key.1 0,
   (extended_y_coords gd cc).getD key.2.1 0,
   (z_coords gd).getD key.2.2 0)

/-- `ops.nodeCoord` against the domain left by `generate_enhanced_nodes`:
node id `t` was the `t`-th node created, i.e. the node of the `t-1`-th key. -/
def enh_coord (gd : GeometryData) (cc : CantileverConfig) (t : ℕ) : Option (ℚ × ℚ × ℚ) :=
  if t = 0 then none
  else ((enhanced_node_keys gd cc)[t - 1]?).map (enh_key_coord gd cc)

/-- The nodes created by `generate_enhanced_nodes`: id and coordinates,
in creation order. -/
def enhanced_nodes (gd : GeometryData) (cc : CantileverConfig) : List (ℕ × ℚ × ℚ × ℚ) :=
  (tagged 1 (enhanced_node_keys gd cc)).map fun p => (p.1, enh_key_coord gd cc p.2)

/-- The column-section policy of `generate_enhanced_column_elements`
(`column_config['type']`). -/
inductive ColumnPolicy
  | uniform
  | exteriorInterior
  | customGroups
deriving DecidableEq

/-- The material id the column generator resolves for core position
`(i, j)` under the active policy. -/
def column_material_id (pol : ColumnPolicy) (ox oy i j : ℕ) : ℕ :=
  match pol with
  | .uniform => 1
  | .exteriorInterior =>
      if i = 0 ∨ i = ox - 1 ∨ j = 0 ∨ j = oy - 1 then 1 else 2
  | .customGroups => i * oy + j + 1

/-- A column element of the enhanced generator: tag, endpoint node ids
and resolved material id. -/
structure EColumn where
  tag : ℕ
  n1 : ℕ
  n2 : ℕ
  matId : ℕ
deriving DecidableEq

/-- `generate_enhanced_column_elements`: for each story `k` and core
position `(i, j)` (row index shifted by the left-cantilever offset), look
up both endpoints in the index map; when either is missing the candidate
is silently dropped — the skip branch of the source neither logs nor
counts.  The element-tag counter starts at 1 and advances only on
creation.  The function returns the created elements; the source returns
their ids together with the next free element id. -/
def generate_enhanced_column_elements (m : ℕ × ℕ × ℕ → Option ℕ)
    (gd : GeometryData) (cc : CantileverConfig) (pol : ColumnPolicy) : List EColumn :=
  let ox := gd.bay_widths_x.length + 1
  let oy := gd.bay_widths_y.length + 1
  let off := cc.yOffset
  tagged 1 (((List.range ((z_coords gd).length - 1)).flatMap fun k =>
    (List.range ox).flatMap fun i =>
      (List.range oy).map fun j => (k, i, j)).filterMap fun p =>
    match m (p.2.1, p.2.2 + off, p.1), m (p.2.1, p.2.2 + off, p.1 + 1) with
    | some nb, some nt => some (nb, nt, column_material_id pol ox oy p.2.1 p.2.2)
    | _, _ => none) |>.map fun q =>
    { tag := q.1, n1 := q.2.1, n2 := q.2.2.1, matId := q.2.2.2 }

/-- Number of column candidates of `generate_enhanced_column_elements`
whose endpoint lookup fails (the silently dropped ones). -/
def skipped_column_candidates (m : ℕ × ℕ × ℕ → Option ℕ)
    (gd : GeometryData) (cc : CantileverConfig) : ℕ :=
  let ox := gd.bay_widths_x.length + 1
  let oy := gd.bay_widths_y.length + 1
  let off := cc.yOffset
  (((List.range ((z_coords gd).length - 1)).flatMap fun k =>
    (List.range ox).flatMap fun i =>
      (List.range oy).map fun j => (k, i, j)).filter fun p =>
    ((m (p.2.1, p.2.2 + off, p.1)).isNone || (m (p.2.1, p.2.2 + off, p.1 + 1)).isNone)).length

/-- The five kinds of beam emitted by `generate_enhanced_beam_elements`,
in the order the per-level loops run. -/
inductive BeamCls
  | mainX
  | mainY
  | frontConn
  | frontBorder
  | rightBorder
  | leftBorder
deriving DecidableEq

/-- Whether a beam kind runs along the X axis (its orthogonality check
compares Y and Z) or along the Y axis (the check compares X and Z). -/
def BeamCls.isXDir : BeamCls → Bool
  | .mainY | .frontBorder => false
  | _ => true

/-- The orthogonality test of the beam loops: the two endpoint
coordinates must agree within 0.001 in the off-axis horizontal direction
and in Z. -/
def beam_check (xdir : Bool) (c1 c2 : ℚ × ℚ × ℚ) : Bool :=
  if xdir then
    decide (|c1.2.1 - c2.2.1| < 1 / 1000) && decide (|c1.2.2 - c2.2.2| < 1 / 1000)
  else
    decide (|c1.1 - c2.1| < 1 / 1000) && decide (|c1.2.2 - c2.2.2| < 1 / 1000)

/-- One candidate of the enhanced beam loops: endpoint keys and kind. -/
structure BeamCand where
  key1 : ℕ × ℕ × ℕ
  key2 : ℕ × ℕ × ℕ
  cls : BeamCls
deriving DecidableEq

/-- The candidate pairs `generate_enhanced_beam_elements` proposes at
level `k`, in loop order: main X beams, main Y beams, then (under the
respective `cantilever_config` flags) front connector beams, the front
border beam chain, the right border chain and the left border chain. -/
def level_beam_cands (gd : GeometryData) (cc : CantileverConfig) (k : ℕ) : List BeamCand :=
  let ox := gd.bay_widths_x.length + 1
  let oy := gd.bay_widths_y.length + 1
  let nex := (extended_x_coords gd cc).length
  let ney := (extended_y_coords gd cc).length
  let off := cc.yOffset
  ((List.range (ox - 1)).flatMap fun i =>
    (List.range oy).map fun j =>
      ⟨(i, j + off, k), (i + 1, j + off, k), BeamCls.mainX⟩) ++
  ((List.range ox).flatMap fun i =>
    (List.range (oy - 1)).map fun j =>
      ⟨(i, j + off, k), (i, j + off + 1, k), BeamCls.mainY⟩) ++
  (if cc.front.isSome then
    ((List.range oy).map fun j =>
      ⟨(ox - 1, j + off, k), (nex - 1, j + off, k), BeamCls.frontConn⟩) ++
    (if 1 < oy then
      (List.range (oy - 1)).map fun j =>
        ⟨(nex - 1, j + off, k), (nex - 1, j + off + 1, k), BeamCls.frontBorder⟩
     else [])
   else []) ++
  (if cc.right.isSome then
    (List.range (ox - 1)).map fun i =>
      ⟨(i, ney - 1, k), (i + 1, ney - 1, k), BeamCls.rightBorder⟩
   else []) ++
  (if cc.left.isSome then
    (List.range (ox - 1)).map fun i =>
      ⟨(i, 0, k), (i + 1, 0, k), BeamCls.leftBorder⟩
   else [])

/-- Resolution of one beam candidate: both endpoints must be in the index
map and the orthogonality check must pass; otherwise the candidate is
skipped. -/
def accept_beam_cand (gd : GeometryData) (cc : CantileverConfig) (c : BeamCand) :
    Option (ℕ × ℕ × BeamCls) :=
  match node_mapping gd cc c.key1, node_mapping gd cc c.key2 with
  | some n1, some n2 =>
      match enh_coord gd cc n1, enh_coord gd cc n2 with
      | some c1, some c2 =>
          if beam_check c.cls.isXDir c1 c2 then some (n1, n2, c.cls) else none
      | _, _ => none
  | _, _ => none

/-- All accepted beam pairs of `generate_enhanced_beam_elements`, over
levels 1 .. number of stories, in creation order. -/
def accepted_beam_pairs (gd : GeometryData) (cc : CantileverConfig) :
    List (ℕ × ℕ × BeamCls) :=
  ((List.range' 1 ((z_coords gd).length - 1)).flatMap fun k =>
    level_beam_cands gd cc k).filterMap (accept_beam_cand gd cc)

/-- The state-dependent section tag chosen for the main beams: the source
tries to create section 2 and falls back to tag 20 when section 2 already
exists in the engine state `s`. -/
def beam_section_tag (s : List ℕ) : ℕ := if 2 ∈ s then 20 else 2

/-- Section tag resolved per beam kind (`101`/`102`/`103` for the
front/right/left cantilever materials, the state-dependent main tag
otherwise). -/
def sect_for (s : List ℕ) : BeamCls → ℕ
  | .mainX | .mainY => beam_section_tag s
  | .frontConn | .frontBorder => 101
  | .rightBorder => 102
  | .leftBorder => 103

/-- A beam element of the enhanced generator. -/
structure EBeam where
  tag : ℕ
  n1 : ℕ
  n2 : ℕ
  sect : ℕ
  cls : BeamCls
deriving DecidableEq

/-- `generate_enhanced_beam_elements`: one element per accepted pair,
tags continuing from `start_element_id`, sections resolved against the
engine state `s` present when the function starts. -/
def generate_enhanced_beam_elements (s : List ℕ) (gd : GeometryData)
    (cc : CantileverConfig) (start_element_id : ℕ) : List EBeam :=
  (tagged start_element_id (accepted_beam_pairs gd cc)).map fun p =>
    { tag := p.1, n1 := p.2.1, n2 := p.2.2.1, sect := sect_for s p.2.2.2, cls := p.2.2.2 }

/-- What `apply_enhanced_boundary_conditions` leaves behind: the node ids
it fixed (in order) and its Python return value.  The source function has
no `return` statement, so it returns `None`; `ret := none` records that. -/
structure BCResult where
  fixed_nodes : List ℕ
  ret : Option ℕ
deriving DecidableEq

/-- `apply_enhanced_boundary_conditions`: restrains, at level 0 only, the
core-footprint positions (the extended axis lengths minus one per active
cantilever side, rows shifted by the left offset). -/
def apply_enhanced_boundary_conditions (m : ℕ × ℕ × ℕ → Option ℕ)
    (ex ey : List ℚ) (cc : CantileverConfig) : BCResult :=
  let ax := ex.length - (if cc.front.isSome then 1 else 0)
  let ay := ey.length - (if cc.right.isSome then 1 else 0) -
    (if cc.left.isSome then 1 else 0)
  let off := cc.yOffset
  { fixed_nodes :=
      (List.range ax).flatMap fun i =>
        (List.range ay).filterMap fun j => m (i, j + off, 0),
    ret := none }

/-- Outcome of the boundary-verification step of `main` (step 6.5): in
the source, `restricted_nodes == 0` only triggers a printed warning
(`None == 0` is false in Python, so a `None` return triggers nothing),
and execution falls through to slabs, loads and the structural analysis
unconditionally — the only early `return` in `main` comes after the
analysis itself fails. -/
structure GateResult where
  critical_warning : Bool
  proceeds_to_analysis : Bool
deriving DecidableEq

/-- The boundary gate of `main` applied to the value that came back from
the boundary-condition step. -/
def main_boundary_gate (restricted : Option ℕ) : GateResult :=
  { critical_warning := restricted == some 0, proceeds_to_analysis := true }

/-! ## Input validation (`input_data.py`) and the load pipeline -/

/-- `validate_geometry_data`: the three array-length checks, raised in
source order as `ValueError` (the spec's `ConfigurationError`). -/
def validate_geometry_data (gd : GeometryData) : Except String GeometryData :=
  if gd.bay_widths_x.length ≠ gd.num_bay_x then
    .error "El numero de longitudes de vanos X no coincide con num_bay_x"
  else if gd.bay_widths_y.length ≠ gd.num_bay_y then
    .error "El numero de longitudes de vanos Y no coincide con num_bay_y"
  else if gd.story_heights.length ≠ gd.num_floor then
    .error "El numero de alturas de pisos no coincide con num_floor"
  else .ok gd

/-- `get_default_geometry_data` of `input_data.py`: the fallback
configuration for non-interactive runs (3×3 bays, 3 stories). -/
def get_default_geometry_data : GeometryData :=
  { num_bay_x := 3, num_bay_y := 3, num_floor := 3,
    bay_widths_x := [5, 6, 5], bay_widths_y := [4, 5, 4],
    story_heights := [3, 3, 3] }

/-- The configuration-file branch of `get_building_geometry_data` as
`main`'s execution mode 3 runs it (`interactive=False`): the loaded data
is validated, but the `except Exception` handler catches a validation
`ValueError`, prints and falls through, and the `not interactive` branch
then returns `get_default_geometry_data()` — the error never propagates. -/
def get_building_geometry_data_file (config : GeometryData) : GeometryData :=
  match validate_geometry_data config with
  | .ok g => g
  | .error _ => get_default_geometry_data

/-- The configuration-file path of the pipeline as the source actually
behaves: whatever `get_building_geometry_data` returns — the validated
data or, after a swallowed validation error, the default configuration —
is handed to `create_nodes`, which creates that model's nodes. -/
def load_and_create_nodes (gd : GeometryData) : List SNode :=
  create_nodes (get_building_geometry_data_file gd)

/-! ## A full enhanced generation run, for the determinism claims -/

/-- Observable output of one enhanced generation run: nodes with
coordinates, column elements and beam elements (with their section
tags), all in creation order. -/
structure RunOutput where
  nodes : List (ℕ × ℚ × ℚ × ℚ)
  columns : List EColumn
  beams : List EBeam
deriving DecidableEq

/-- One enhanced generation run against the engine-state `s` (the set of
section tags already defined by whatever ran before): nodes, then
columns (element ids from 1), then beams (element ids continuing). -/
def enhanced_run (s : List ℕ) (gd : GeometryData) (cc : CantileverConfig)
    (pol : ColumnPolicy) : RunOutput :=
  let cols := generate_enhanced_column_elements (node_mapping gd cc) gd cc pol
  { nodes := enhanced_nodes gd cc,
    columns := cols,
    beams := generate_enhanced_beam_elements s gd cc (cols.length + 1) }

/-! ## Concrete configurations used by witnesses and counterexamples -/

/-- Scenario A of the spec: 2×2 bays of width 3, one story of height 3. -/
def gdA : GeometryData :=
  { num_bay_x := 2, num_bay_y := 2, num_floor := 1,
    bay_widths_x := [3, 3], bay_widths_y := [3, 3], story_heights := [3] }

/-- No cantilever on any side. -/
def ccNone : CantileverConfig := { front := none, right := none, left := none }

/-- A front cantilever of length 1.5 (Scenario B of the spec). -/
def ccFront : CantileverConfig := { front := some ⟨3 / 2⟩, right := none, left := none }

/-- A left cantilever of length 1.5. -/
def ccLeft : CantileverConfig := { front := none, right := none, left := some ⟨3 / 2⟩ }

/-- A one-bay, one-story configuration. -/
def gdSmall1 : GeometryData :=
  { num_bay_x := 1, num_bay_y := 1, num_floor := 1,
    bay_widths_x := [3], bay_widths_y := [3], story_heights := [3] }

/-- Like `gdSmall1` but with two stories. -/
def gdSmall2 : GeometryData :=
  { num_bay_x := 1, num_bay_y := 1, num_floor := 2,
    bay_widths_x := [3], bay_widths_y := [3], story_heights := [3, 3] }

/-- Scenario C of the spec: `bay_widths_x` has length 1 although
`num_bay_x = 2`. -/
def gdMismatch : GeometryData :=
  { num_bay_x := 2, num_bay_y := 2, num_floor := 1,
    bay_widths_x := [3], bay_widths_y := [3, 3], story_heights := [3] }

/-- The ids-plus-next-id output shape of
`generate_enhanced_column_elements` as the source returns it
(`return column_elements_ids, element_id`). -/
def enhanced_columns_output (m : ℕ × ℕ × ℕ → Option ℕ) (gd : GeometryData)
    (cc : CantileverConfig) (pol : ColumnPolicy) : List ℕ × ℕ :=
  let es := generate_enhanced_column_elements m gd cc pol
  (es.map EColumn.tag, es.length + 1)

/-- An optional cantilever side has positive length when present. -/
def option_len_pos (o : Option CantSide) : Prop :=
  match o with
  | some f => 0 < f.length
  | none => True

instance (o : Option CantSide) : Decidable (option_len_pos o) :=
  match o with
  | some f => inferInstanceAs (Decidable (0 < f.length))
  | none => inferInstanceAs (Decidable True)

/-- Every configured cantilever side has positive length. -/
def CantileverConfig.positive (cc : CantileverConfig) : Prop :=
  option_len_pos cc.front ∧ option_len_pos cc.right ∧ option_len_pos cc.left

instance (cc : CantileverConfig) : Decidable cc.positive := by
  unfold CantileverConfig.positive; infer_instance

/-- The orthogonality invariant claimed for every materialized beam: the
two endpoint coordinates differ in exactly one horizontal axis, are
within the tolerance 0.001 in the other horizontal axis, and within the
tolerance in elevation Z. -/
def ortho_pair (c1 c2 : ℚ × ℚ × ℚ) : Prop :=
  (c1.1 ≠ c2.1 ∧ |c1.2.1 - c2.2.1| ≤ 1 / 1000 ∧ |c1.2.2 - c2.2.2| ≤ 1 / 1000) ∨
  (c1.2.1 ≠ c2.2.1 ∧ |c1.1 - c2.1| ≤ 1 / 1000 ∧ |c1.2.2 - c2.2.2| ≤ 1 / 1000)

/-- The level rule claimed for the cantilever-aware node generator:
(a) level 0 creates exactly the core footprint (row indices shifted by
the left offset) and so no cantilever-footprint node; (b) all levels
k ≥ 1 share one creation rule (same extents); (c) each active cantilever
side contributes exactly one extra coordinate to its axis; (d) from
level 1 upward every coordinate of both axes carries at least one node;
(e) no node is created outside the extended index ranges. -/
def enhanced_cantilever_level_rule (gd : GeometryData) (cc : CantileverConfig) : Prop :=
  (∀ i j, should_create_node cc (x_coords gd).length (y_coords gd).length
      (extended_x_coords gd cc).length (extended_y_coords gd cc).length i j 0 = true ↔
    (i < (x_coords gd).length ∧ cc.yOffset ≤ j ∧
      j < (y_coords gd).length + cc.yOffset)) ∧
  (∀ i j k, 1 ≤ k →
    should_create_node cc (x_coords gd).length (y_coords gd).length
      (extended_x_coords gd cc).length (extended_y_coords gd cc).length i j k =
    should_create_node cc (x_coords gd).length (y_coords gd).length
      (extended_x_coords gd cc).length (extended_y_coords gd cc).length i j 1) ∧
  ((extended_x_coords gd cc).length =
      (x_coords gd).length + (if cc.front.isSome then 1 else 0) ∧
   (extended_y_coords gd cc).length =
      (y_coords gd).length + (if cc.left.isSome then 1 else 0) +
        (if cc.right.isSome then 1 else 0)) ∧
  (∀ k, 1 ≤ k →
    (∀ i, i < (extended_x_coords gd cc).length →
      ∃ j, j < (extended_y_coords gd cc).length ∧
        should_create_node cc (x_coords gd).length (y_coords gd).length
          (extended_x_coords gd cc).length (extended_y_coords gd cc).length i j k = true) ∧
    (∀ j, j < (extended_y_coords gd cc).length →
      ∃ i, i < (extended_x_coords gd cc).length ∧
        should_create_node cc (x_coords gd).length (y_coords gd).length
          (extended_x_coords gd cc).length (extended_y_coords gd cc).length i j k = true)) ∧
  (∀ i j k, should_create_node cc (x_coords gd).length (y_coords gd).length
      (extended_x_coords gd cc).length (extended_y_coords gd cc).length i j k = true →
    i < (extended_x_coords gd cc).length ∧ j < (extended_y_coords gd cc).length)

/-! ## Helper lemmas -/

theorem tagged_length {α : Type} (n : ℕ) (l : List α) : (tagged n l).length = l.length := by
  induction l generalizing n with
  | nil => rfl
  | cons a l ih => simp [tagged, ih]

theorem tagged_getElem? {α : Type} (n p : ℕ) (l : List α) :
    (tagged n l)[p]? = l[p]?.map fun a => (n + p, a) := by
  induction l generalizing n p with
  | nil => simp [tagged]
  | cons a l ih =>
      cases p with
      | zero => simp [tagged]
      | succ q =>
          have hq : n + 1 + q = n + (q + 1) := by omega
          simp only [tagged, List.getElem?_cons_succ, ih (n + 1) q, hq]

theorem tagged_mem {α : Type} {n : ℕ} {l : List α} {q : ℕ × α} (h : q ∈ tagged n l) :
    ∃ p, l[p]? = some q.2 ∧ q.1 = n + p := by
  induction l generalizing n with
  | nil => simp [tagged] at h
  | cons a l ih =>
      simp only [tagged, List.mem_cons] at h
      rcases h with h | h
      · exact ⟨0, by simp [h], by simp [h]⟩
      · obtain ⟨p, hp, hq⟩ := ih h
        exact ⟨p + 1, by simpa using hp, by omega⟩

theorem tagged_map_fst {α : Type} (n : ℕ) (l : List α) :
    (tagged n l).map Prod.fst = List.range' n l.length := by
  induction l generalizing n with
  | nil => rfl
  | cons a l ih => simp [tagged, List.range'_succ, ih]

theorem tagged_find? {α : Type} {n t : ℕ} (l : List α) (h1 : n ≤ t) (h2 : t < n + l.length) :
    (tagged n l).find? (fun p => p.1 == t) = (tagged n l)[t - n]? := by
  induction l generalizing n with
  | nil => simp at h2; omega
  | cons a l ih =>
      by_cases ht : t = n
      · subst ht; simp [tagged, List.find?]
      · have hlt : n + 1 ≤ t := by omega
        have : t - n = (t - (n + 1)) + 1 := by omega
        rw [tagged, List.find?_cons_of_neg _ (by simp; omega), this]
        simpa using ih (n := n + 1) hlt (by simp at h2 ⊢; omega)

theorem idxOf?_getElem? {α : Type} [DecidableEq α] {l : List α} {a : α} {p : ℕ}
    (h : idxOf? l a = some p) : l[p]? = some a := by
  induction l generalizing p with
  | nil => simp [idxOf?] at h
  | cons b l ih =>
      by_cases hb : b = a
      · simp [idxOf?, hb] at h; simp [← h, hb]
      · simp only [idxOf?, if_neg hb, Option.map_eq_some'] at h
        obtain ⟨q, hq, rfl⟩ := h
        simpa using ih hq

theorem idxOf?_isSome_of_mem {α : Type} [DecidableEq α] {l : List α} {a : α}
    (h : a ∈ l) : (idxOf? l a).isSome := by
  induction l with
  | nil => simp at h
  | cons b l ih =>
      by_cases hb : b = a
      · simp [idxOf?, hb]
      · rcases List.mem_cons.1 h with h' | h'
        · exact absurd h'.symm hb
        · simpa [idxOf?, hb] using ih h'

theorem length_flatMap_range_const {α : Type} {f : ℕ → List α} {c : ℕ}
    (h : ∀ m, (f m).length = c) (n : ℕ) :
    ((List.range n).flatMap f).length = n * c := by
  induction n with
  | zero => simp
  | succ m ih => simp [List.range_succ, ih, h m, Nat.succ_mul]

theorem getElem?_flatMap_range_const {α : Type} {f : ℕ → List α} {c : ℕ}
    (h : ∀ m, (f m).length = c) {n k r : ℕ} (hk : k < n) (hr : r < c) :
    ((List.range n).flatMap f)[k * c + r]? = (f k)[r]? := by
  induction n with
  | zero => omega
  | succ m ih =>
      rw [List.range_succ, List.flatMap_append]
      by_cases hkm : k < m
      · rw [List.getElem?_append_left]
        · exact ih hkm
        · rw [length_flatMap_range_const h]
          calc k * c + r < k * c + c := by omega
            _ ≤ m * c := by
                have : k + 1 ≤ m := hkm
                calc k * c + c = (k + 1) * c := by ring
                  _ ≤ m * c := Nat.mul_le_mul_right c this
      · have hk' : k = m := by omega
        subst hk'
        rw [List.getElem?_append_right (by rw [length_flatMap_range_const h]; omega)]
        rw [length_flatMap_range_const h]
        simp [Nat.add_sub_cancel_left]

theorem sumTake_succ_of_lt {l : List ℚ} {n : ℕ} (h : n < l.length) :
    sumTake l (n + 1) = sumTake l n + l[n]?.getD 0 := by
  unfold sumTake
  rw [List.take_succ, List.sum_append, List.getElem?_eq_getElem h]
  simp

theorem sumTake_lt_succ {l : List ℚ} {n : ℕ} (h : n < l.length)
    (hpos : ∀ w ∈ l, 0 < w) : sumTake l n < sumTake l (n + 1) := by
  rw [sumTake_succ_of_lt h]
  have hmem : l[n] ∈ l := List.getElem_mem h
  have := hpos _ hmem
  simp [List.getElem?_eq_getElem h]
  linarith

theorem sumTake_full (l : List ℚ) : sumTake l l.length = l.sum := by
  simp [sumTake]

theorem mem_of_getElem?_eq_some {α : Type} {l : List α} {n : ℕ} {a : α}
    (h : l[n]? = some a) : a ∈ l := by
  obtain ⟨hl, rfl⟩ := List.getElem?_eq_some_iff.1 h
  exact List.getElem_mem hl

theorem filterMap_length_add_none {α β : Type} (g : α → Option β) (l : List α) :
    (l.filterMap g).length + (l.filter fun a => (g a).isNone).length = l.length := by
  induction l with
  | nil => simp
  | cons a l ih =>
      cases hg : g a with
      | none => simp [List.filterMap_cons, hg, List.filter_cons, ← ih]; omega
      | some b => simp [List.filterMap_cons, hg, List.filter_cons, ← ih]; omega

/-! ## Structure of the standard node list -/

theorem node_triples_inner_length (gd : GeometryData) (k : ℕ) :
    ((List.range (gd.num_bay_y + 1)).flatMap fun j =>
      (List.range (gd.num_bay_x + 1)).map fun i => (k, j, i)).length =
      (gd.num_bay_y + 1) * (gd.num_bay_x + 1) :=
  length_flatMap_range_const (fun _ => by simp) _

theorem node_triples_getElem? (gd : GeometryData) {k j i : ℕ}
    (hk : k < gd.num_floor + 1) (hj : j < gd.num_bay_y + 1) (hi : i < gd.num_bay_x + 1) :
    (node_triples gd)[k * ((gd.num_bay_y + 1) * (gd.num_bay_x + 1)) +
      (j * (gd.num_bay_x + 1) + i)]? = some (k, j, i) := by
  have hb : j * (gd.num_bay_x + 1) + i < (gd.num_bay_y + 1) * (gd.num_bay_x + 1) := by
    calc j * (gd.num_bay_x + 1) + i < (j + 1) * (gd.num_bay_x + 1) := by
          rw [Nat.succ_mul]; omega
      _ ≤ (gd.num_bay_y + 1) * (gd.num_bay_x + 1) := Nat.mul_le_mul_right _ hj
  unfold node_triples
  rw [getElem?_flatMap_range_const (fun m => node_triples_inner_length gd m) hk hb]
  rw [getElem?_flatMap_range_const (fun m => by simp) hj hi]
  simp [List.getElem?_range hi]

theorem node_triples_mem (gd : GeometryData) {p : ℕ × ℕ × ℕ} :
    p ∈ node_triples gd ↔
      p.1 < gd.num_floor + 1 ∧ p.2.1 < gd.num_bay_y + 1 ∧ p.2.2 < gd.num_bay_x + 1 := by
  obtain ⟨k, j, i⟩ := p
  simp only [node_triples, List.mem_flatMap, List.mem_map, List.mem_range]
  constructor
  · rintro ⟨a, ha, b, hb, c, hc, h⟩
    injection h with h1 h2
    injection h2 with h2 h3
    subst h1; subst h2; subst h3
    exact ⟨ha, hb, hc⟩
  · rintro ⟨hk, hj, hi⟩
    exact ⟨k, hk, j, hj, i, hi, rfl⟩

theorem node_triples_nodup (gd : GeometryData) : (node_triples gd).Nodup := by
  unfold node_triples
  rw [List.nodup_flatMap]
  refine ⟨fun k _ => ?_, ?_⟩
  · rw [List.nodup_flatMap]
    refine ⟨fun j _ => ?_, ?_⟩
    · exact (List.nodup_range _).map fun a b hab => by simpa using hab
    · refine (List.pairwise_lt_range _).imp fun hab x hx hx' => ?_
      simp only [List.mem_map, List.mem_range] at hx hx'
      obtain ⟨c, _, rfl⟩ := hx
      obtain ⟨c', _, h⟩ := hx'
      injection h with h1 h2
      injection h2 with h2 h3
      omega
  · refine (List.pairwise_lt_range _).imp fun hab x hx hx' => ?_
    simp only [List.mem_flatMap, List.mem_map, List.mem_range] at hx hx'
    obtain ⟨b, _, c, _, rfl⟩ := hx
    obtain ⟨b', _, c', _, h⟩ := hx'
    injection h with h1 h2
    omega

theorem create_nodes_getElem? (gd : GeometryData) (p : ℕ) :
    (create_nodes gd)[p]? = ((node_triples gd)[p]?).map fun tr =>
      ({ tag := 1 + p, ix := tr.2.2, iy := tr.2.1, iz := tr.1,
         x := sumTake gd.bay_widths_x tr.2.2,
         y := sumTake gd.bay_widths_y tr.2.1,
         z := sumTake gd.story_heights tr.1,
         fixed := tr.1 == 0 } : SNode) := by
  unfold create_nodes
  rw [List.getElem?_map, tagged_getElem?]
  cases h : (node_triples gd)[p]? <;> simp

theorem create_nodes_length (gd : GeometryData) :
    (create_nodes gd).length = (node_triples gd).length := by
  unfold create_nodes
  rw [List.length_map, tagged_length]

theorem nodeCoordStd_eq (gd : GeometryData) {t : ℕ} (h1 : 1 ≤ t)
    (h2 : t ≤ (node_triples gd).length) :
    nodeCoordStd gd t = ((node_triples gd)[t - 1]?).map fun tr =>
      (sumTake gd.bay_widths_x tr.2.2, sumTake gd.bay_widths_y tr.2.1,
       sumTake gd.story_heights tr.1) := by
  unfold nodeCoordStd create_nodes
  rw [List.find?_map]
  have hpred : ((fun nd : SNode => nd.tag == t) ∘ fun p : ℕ × (ℕ × ℕ × ℕ) =>
      ({ tag := p.1, ix := p.2.2.2, iy := p.2.2.1, iz := p.2.1,
         x := sumTake gd.bay_widths_x p.2.2.2,
         y := sumTake gd.bay_widths_y p.2.2.1,
         z := sumTake gd.story_heights p.2.1,
         fixed := p.2.1 == 0 } : SNode)) = fun p => p.1 == t := rfl
  rw [hpred, tagged_find? _ h1 (by omega), tagged_getElem?]
  cases h : (node_triples gd)[t - 1]? <;> simp

theorem filterMap_eq_map_of_forall {α β : Type} {f : α → Option β} {g : α → β}
    {l : List α} (h : ∀ a ∈ l, f a = some (g a)) : l.filterMap f = l.map g := by
  induction l with
  | nil => rfl
  | cons a l ih =>
      rw [List.filterMap_cons, h a (by simp), List.map_cons,
        ih fun a ha => h a (by simp [ha])]

theorem node_triples_length (gd : GeometryData) :
    (node_triples gd).length =
      (gd.num_floor + 1) * ((gd.num_bay_y + 1) * (gd.num_bay_x + 1)) :=
  length_flatMap_range_const (node_triples_inner_length gd) _

theorem beamX_cands_mem (gd : GeometryData) {p : ℕ × ℕ × ℕ} :
    p ∈ beamX_cands gd ↔
      1 ≤ p.1 ∧ p.1 < 1 + gd.num_floor ∧ p.2.1 < gd.num_bay_y + 1 ∧
      p.2.2 < gd.num_bay_x := by
  obtain ⟨k, j, i⟩ := p
  simp only [beamX_cands, List.mem_flatMap, List.mem_map, List.mem_range,
    List.mem_range'_1]
  constructor
  · rintro ⟨a, ⟨ha1, ha2⟩, b, hb, c, hc, h⟩
    injection h with h1 h2
    injection h2 with h2 h3
    subst h1; subst h2; subst h3
    exact ⟨ha1, ha2, hb, hc⟩
  · rintro ⟨h1, h2, h3, h4⟩
    exact ⟨k, ⟨h1, h2⟩, j, h3, i, h4, rfl⟩

theorem beamY_cands_mem (gd : GeometryData) {p : ℕ × ℕ × ℕ} :
    p ∈ beamY_cands gd ↔
      1 ≤ p.1 ∧ p.1 < 1 + gd.num_floor ∧ p.2.1 < gd.num_bay_x + 1 ∧
      p.2.2 < gd.num_bay_y := by
  obtain ⟨k, i, j⟩ := p
  simp only [beamY_cands, List.mem_flatMap, List.mem_map, List.mem_range,
    List.mem_range'_1]
  constructor
  · rintro ⟨a, ⟨ha1, ha2⟩, b, hb, c, hc, h⟩
    injection h with h1 h2
    injection h2 with h2 h3
    subst h1; subst h2; subst h3
    exact ⟨ha1, ha2, hb, hc⟩
  · rintro ⟨h1, h2, h3, h4⟩
    exact ⟨k, ⟨h1, h2⟩, i, h3, j, h4, rfl⟩

theorem beamX_accept_eq (gd : GeometryData) {total : ℕ}
    (htot : (node_triples gd).length ≤ total) {k j i : ℕ}
    (hk1 : 1 ≤ k) (hk : k ≤ gd.num_floor) (hj : j < gd.num_bay_y + 1)
    (hi : i < gd.num_bay_x) :
    beamX_accept gd total (k, j, i) =
      some { n1 := 1 + k * ((gd.num_bay_x + 1) * (gd.num_bay_y + 1)) +
               j * (gd.num_bay_x + 1) + i,
             n2 := 1 + k * ((gd.num_bay_x + 1) * (gd.num_bay_y + 1)) +
               j * (gd.num_bay_x + 1) + i + 1,
             dirX := true } := by
  have hcomm : (gd.num_bay_x + 1) * (gd.num_bay_y + 1) =
      (gd.num_bay_y + 1) * (gd.num_bay_x + 1) := Nat.mul_comm _ _
  have hb1 : j * (gd.num_bay_x + 1) + i <
      (gd.num_bay_y + 1) * (gd.num_bay_x + 1) := by
    calc j * (gd.num_bay_x + 1) + i < (j + 1) * (gd.num_bay_x + 1) := by
          rw [Nat.succ_mul]; omega
      _ ≤ (gd.num_bay_y + 1) * (gd.num_bay_x + 1) := Nat.mul_le_mul_right _ hj
  have hb2 : j * (gd.num_bay_x + 1) + (i + 1) <
      (gd.num_bay_y + 1) * (gd.num_bay_x + 1) := by
    calc j * (gd.num_bay_x + 1) + (i + 1) < (j + 1) * (gd.num_bay_x + 1) := by
          rw [Nat.succ_mul]; omega
      _ ≤ (gd.num_bay_y + 1) * (gd.num_bay_x + 1) := Nat.mul_le_mul_right _ hj
  have hkm : k * ((gd.num_bay_y + 1) * (gd.num_bay_x + 1)) ≤
      gd.num_floor * ((gd.num_bay_y + 1) * (gd.num_bay_x + 1)) :=
    Nat.mul_le_mul_right _ hk
  have ht1 : 1 + k * ((gd.num_bay_x + 1) * (gd.num_bay_y + 1)) +
      j * (gd.num_bay_x + 1) + i ≤ (node_triples gd).length := by
    rw [node_triples_length, hcomm]
    calc 1 + k * ((gd.num_bay_y + 1) * (gd.num_bay_x + 1)) +
          j * (gd.num_bay_x + 1) + i
        = (j * (gd.num_bay_x + 1) + i + 1) +
          k * ((gd.num_bay_y + 1) * (gd.num_bay_x + 1)) := by ring
      _ ≤ (gd.num_bay_y + 1) * (gd.num_bay_x + 1) +
          gd.num_floor * ((gd.num_bay_y + 1) * (gd.num_bay_x + 1)) :=
          Nat.add_le_add hb1 hkm
      _ = (gd.num_floor + 1) * ((gd.num_bay_y + 1) * (gd.num_bay_x + 1)) := by ring
  have ht2 : 1 + k * ((gd.num_bay_x + 1) * (gd.num_bay_y + 1)) +
      j * (gd.num_bay_x + 1) + i + 1 ≤ (node_triples gd).length := by
    rw [node_triples_length, hcomm]
    calc 1 + k * ((gd.num_bay_y + 1) * (gd.num_bay_x + 1)) +
          j * (gd.num_bay_x + 1) + i + 1
        = (j * (gd.num_bay_x + 1) + (i + 1) + 1) +
          k * ((gd.num_bay_y + 1) * (gd.num_bay_x + 1)) := by ring
      _ ≤ (gd.num_bay_y + 1) * (gd.num_bay_x + 1) +
          gd.num_floor * ((gd.num_bay_y + 1) * (gd.num_bay_x + 1)) :=
          Nat.add_le_add hb2 hkm
      _ = (gd.num_floor + 1) * ((gd.num_bay_y + 1) * (gd.num_bay_x + 1)) := by ring
  have hdec1 : (node_triples gd)[1 + k * ((gd.num_bay_x + 1) * (gd.num_bay_y + 1)) +
      j * (gd.num_bay_x + 1) + i - 1]? = some (k, j, i) := by
    have harith : 1 + k * ((gd.num_bay_x + 1) * (gd.num_bay_y + 1)) +
        j * (gd.num_bay_x + 1) + i - 1 =
        k * ((gd.num_bay_y + 1) * (gd.num_bay_x + 1)) +
        (j * (gd.num_bay_x + 1) + i) := by
      rw [hcomm]; omega
    rw [harith]
    exact node_triples_getElem? gd (by omega) hj (by omega)
  have hdec2 : (node_triples gd)[1 + k * ((gd.num_bay_x + 1) * (gd.num_bay_y + 1)) +
      j * (gd.num_bay_x + 1) + i + 1 - 1]? = some (k, j, i + 1) := by
    have harith : 1 + k * ((gd.num_bay_x + 1) * (gd.num_bay_y + 1)) +
        j * (gd.num_bay_x + 1) + i + 1 - 1 =
        k * ((gd.num_bay_y + 1) * (gd.num_bay_x + 1)) +
        (j * (gd.num_bay_x + 1) + (i + 1)) := by
      rw [hcomm]; omega
    rw [harith]
    exact node_triples_getElem? gd (by omega) hj (by omega)
  have hc1 := nodeCoordStd_eq gd (t := 1 + k * ((gd.num_bay_x + 1) * (gd.num_bay_y + 1)) +
      j * (gd.num_bay_x + 1) + i) (by omega) ht1
  have hc2 := nodeCoordStd_eq gd (t := 1 + k * ((gd.num_bay_x + 1) * (gd.num_bay_y + 1)) +
      j * (gd.num_bay_x + 1) + i + 1) (by omega) ht2
  rw [hdec1] at hc1
  rw [hdec2] at hc2
  simp only [beamX_accept]
  rw [if_pos ⟨ht1.trans htot, ht2.trans htot⟩, hc1, hc2]
  simp only [Option.map_some']
  rw [if_pos ⟨by rw [sub_self, abs_zero]; norm_num, by rw [sub_self, abs_zero]; norm_num⟩]

theorem beamY_accept_eq (gd : GeometryData) {total : ℕ}
    (htot : (node_triples gd).length ≤ total) {k i j : ℕ}
    (hk1 : 1 ≤ k) (hk : k ≤ gd.num_floor) (hi : i < gd.num_bay_x + 1)
    (hj : j < gd.num_bay_y) :
    beamY_accept gd total (k, i, j) =
      some { n1 := 1 + k * ((gd.num_bay_x + 1) * (gd.num_bay_y + 1)) +
               j * (gd.num_bay_x + 1) + i,
             n2 := 1 + k * ((gd.num_bay_x + 1) * (gd.num_bay_y + 1)) +
               j * (gd.num_bay_x + 1) + i + (gd.num_bay_x + 1),
             dirX := false } := by
  have hcomm : (gd.num_bay_x + 1) * (gd.num_bay_y + 1) =
      (gd.num_bay_y + 1) * (gd.num_bay_x + 1) := Nat.mul_comm _ _
  have hb1 : j * (gd.num_bay_x + 1) + i <
      (gd.num_bay_y + 1) * (gd.num_bay_x + 1) := by
    calc j * (gd.num_bay_x + 1) + i < (j + 1) * (gd.num_bay_x + 1) := by
          rw [Nat.succ_mul]; omega
      _ ≤ (gd.num_bay_y + 1) * (gd.num_bay_x + 1) :=
          Nat.mul_le_mul_right _ (by omega)
  have hb2 : (j + 1) * (gd.num_bay_x + 1) + i <
      (gd.num_bay_y + 1) * (gd.num_bay_x + 1) := by
    calc (j + 1) * (gd.num_bay_x + 1) + i < (j + 2) * (gd.num_bay_x + 1) := by
          rw [show (j + 2) * (gd.num_bay_x + 1) =
            (j + 1) * (gd.num_bay_x + 1) + (gd.num_bay_x + 1) from by ring]
          omega
      _ ≤ (gd.num_bay_y + 1) * (gd.num_bay_x + 1) :=
          Nat.mul_le_mul_right _ (by omega)
  have hkm : k * ((gd.num_bay_y + 1) * (gd.num_bay_x + 1)) ≤
      gd.num_floor * ((gd.num_bay_y + 1) * (gd.num_bay_x + 1)) :=
    Nat.mul_le_mul_right _ hk
  have ht1 : 1 + k * ((gd.num_bay_x + 1) * (gd.num_bay_y + 1)) +
      j * (gd.num_bay_x + 1) + i ≤ (node_triples gd).length := by
    rw [node_triples_length, hcomm]
    calc 1 + k * ((gd.num_bay_y + 1) * (gd.num_bay_x + 1)) +
          j * (gd.num_bay_x + 1) + i
        = (j * (gd.num_bay_x + 1) + i + 1) +
          k * ((gd.num_bay_y + 1) * (gd.num_bay_x + 1)) := by ring
      _ ≤ (gd.num_bay_y + 1) * (gd.num_bay_x + 1) +
          gd.num_floor * ((gd.num_bay_y + 1) * (gd.num_bay_x + 1)) :=
          Nat.add_le_add hb1 hkm
      _ = (gd.num_floor + 1) * ((gd.num_bay_y + 1) * (gd.num_bay_x + 1)) := by ring
  have ht2 : 1 + k * ((gd.num_bay_x + 1) * (gd.num_bay_y + 1)) +
      j * (gd.num_bay_x + 1) + i + (gd.num_bay_x + 1) ≤ (node_triples gd).length := by
    rw [node_triples_length, hcomm]
    calc 1 + k * ((gd.num_bay_y + 1) * (gd.num_bay_x + 1)) +
          j * (gd.num_bay_x + 1) + i + (gd.num_bay_x + 1)
        = ((j + 1) * (gd.num_bay_x + 1) + i + 1) +
          k * ((gd.num_bay_y + 1) * (gd.num_bay_x + 1)) := by ring
      _ ≤ (gd.num_bay_y + 1) * (gd.num_bay_x + 1) +
          gd.num_floor * ((gd.num_bay_y + 1) * (gd.num_bay_x + 1)) :=
          Nat.add_le_add hb2 hkm
      _ = (gd.num_floor + 1) * ((gd.num_bay_y + 1) * (gd.num_bay_x + 1)) := by ring
  have hdec1 : (node_triples gd)[1 + k * ((gd.num_bay_x + 1) * (gd.num_bay_y + 1)) +
      j * (gd.num_bay_x + 1) + i - 1]? = some (k, j, i) := by
    have harith : 1 + k * ((gd.num_bay_x + 1) * (gd.num_bay_y + 1)) +
        j * (gd.num_bay_x + 1) + i - 1 =
        k * ((gd.num_bay_y + 1) * (gd.num_bay_x + 1)) +
        (j * (gd.num_bay_x + 1) + i) := by
      rw [hcomm]; omega
    rw [harith]
    exact node_triples_getElem? gd (by omega) (by omega) (by omega)
  have hdec2 : (node_triples gd)[1 + k * ((gd.num_bay_x + 1) * (gd.num_bay_y + 1)) +
      j * (gd.num_bay_x + 1) + i + (gd.num_bay_x + 1) - 1]? = some (k, j + 1, i) := by
    have harith : 1 + k * ((gd.num_bay_x + 1) * (gd.num_bay_y + 1)) +
        j * (gd.num_bay_x + 1) + i + (gd.num_bay_x + 1) - 1 =
        k * ((gd.num_bay_y + 1) * (gd.num_bay_x + 1)) +
        ((j + 1) * (gd.num_bay_x + 1) + i) := by
      have hsm : (j + 1) * (gd.num_bay_x + 1) =
          j * (gd.num_bay_x + 1) + (gd.num_bay_x + 1) := Nat.succ_mul j _
      rw [hcomm]; omega
    rw [harith]
    exact node_triples_getElem? gd (by omega) (by omega) (by omega)
  have hc1 := nodeCoordStd_eq gd (t := 1 + k * ((gd.num_bay_x + 1) * (gd.num_bay_y + 1)) +
      j * (gd.num_bay_x + 1) + i) (by omega) ht1
  have hc2 := nodeCoordStd_eq gd (t := 1 + k * ((gd.num_bay_x + 1) * (gd.num_bay_y + 1)) +
      j * (gd.num_bay_x + 1) + i + (gd.num_bay_x + 1)) (by omega) ht2
  rw [hdec1] at hc1
  rw [hdec2] at hc2
  simp only [beamY_accept]
  rw [if_pos ⟨ht1.trans htot, ht2.trans htot⟩, hc1, hc2]
  simp only [Option.map_some']
  rw [if_pos ⟨by rw [sub_self, abs_zero]; norm_num, by rw [sub_self, abs_zero]; norm_num⟩]

theorem beamX_accepted_eq (gd : GeometryData) {total : ℕ}
    (htot : (node_triples gd).length ≤ total) :
    beamX_accepted gd total = (beamX_cands gd).map fun p =>
      { n1 := 1 + p.1 * ((gd.num_bay_x + 1) * (gd.num_bay_y + 1)) +
          p.2.1 * (gd.num_bay_x + 1) + p.2.2,
        n2 := 1 + p.1 * ((gd.num_bay_x + 1) * (gd.num_bay_y + 1)) +
          p.2.1 * (gd.num_bay_x + 1) + p.2.2 + 1,
        dirX := true } := by
  refine filterMap_eq_map_of_forall fun p hp => ?_
  obtain ⟨k, j, i⟩ := p
  obtain ⟨h1, h2, h3, h4⟩ := (beamX_cands_mem gd).1 hp
  exact beamX_accept_eq gd htot h1 (by omega) h3 h4

theorem beamY_accepted_eq (gd : GeometryData) {total : ℕ}
    (htot : (node_triples gd).length ≤ total) :
    beamY_accepted gd total = (beamY_cands gd).map fun p =>
      { n1 := 1 + p.1 * ((gd.num_bay_x + 1) * (gd.num_bay_y + 1)) +
          p.2.2 * (gd.num_bay_x + 1) + p.2.1,
        n2 := 1 + p.1 * ((gd.num_bay_x + 1) * (gd.num_bay_y + 1)) +
          p.2.2 * (gd.num_bay_x + 1) + p.2.1 + (gd.num_bay_x + 1),
        dirX := false } := by
  refine filterMap_eq_map_of_forall fun p hp => ?_
  obtain ⟨k, i, j⟩ := p
  obtain ⟨h1, h2, h3, h4⟩ := (beamY_cands_mem gd).1 hp
  exact beamY_accept_eq gd htot h1 (by omega) h3 h4

theorem create_nodes_tags (gd : GeometryData) :
    (create_nodes gd).map SNode.tag = List.range' 1 (create_nodes gd).length := by
  rw [create_nodes_length]
  unfold create_nodes
  rw [List.map_map]
  exact tagged_map_fst 1 (node_triples gd)

theorem create_columns_tags (gd : GeometryData) :
    (create_columns gd).map Elem.tag = List.range' 1 (create_columns gd).length := by
  unfold create_columns
  rw [List.map_map, List.length_map, tagged_length]
  exact tagged_map_fst 1 (column_triples gd)

theorem create_beams_tags (gd : GeometryData) (start total : ℕ) :
    (create_beams gd start total).map SBeam.tag =
      List.range' start (create_beams gd start total).length := by
  unfold create_beams
  rw [List.map_map, List.length_map, tagged_length]
  exact tagged_map_fst start _

theorem enhanced_nodes_tags (gd : GeometryData) (cc : CantileverConfig) :
    (enhanced_nodes gd cc).map Prod.fst =
      List.range' 1 (enhanced_nodes gd cc).length := by
  unfold enhanced_nodes
  rw [List.map_map, List.length_map, tagged_length]
  exact tagged_map_fst 1 _

theorem enhanced_columns_tags (m : ℕ × ℕ × ℕ → Option ℕ) (gd : GeometryData)
    (cc : CantileverConfig) (pol : ColumnPolicy) :
    (generate_enhanced_column_elements m gd cc pol).map EColumn.tag =
      List.range' 1 (generate_enhanced_column_elements m gd cc pol).length := by
  unfold generate_enhanced_column_elements
  rw [List.map_map, List.length_map, tagged_length]
  exact tagged_map_fst 1 _

theorem enhanced_beams_tags (s : List ℕ) (gd : GeometryData) (cc : CantileverConfig)
    (sId : ℕ) :
    (generate_enhanced_beam_elements s gd cc sId).map EBeam.tag =
      List.range' sId (generate_enhanced_beam_elements s gd cc sId).length := by
  unfold generate_enhanced_beam_elements
  rw [List.map_map, List.length_map, tagged_length]
  exact tagged_map_fst sId _

/-! ## Claim theorems -/

/-- Claim C10: the closed-form tag `1 + k·(nx+1)·(ny+1) + j·(nx+1) + i`
computed by `get_node_tag_from_indices` agrees with the tag the
sequential creation loop of `create_nodes` assigns: every created node
carries exactly the formula tag of its index triple, and every in-range
index triple is realized by a created node carrying the formula tag. -/
theorem claim_C10_tag_formula_vs_loop (gd : GeometryData) :
    (∀ n ∈ create_nodes gd,
      n.tag = get_node_tag_from_indices n.iz n.iy n.ix gd.num_bay_x gd.num_bay_y) ∧
    (∀ i j k, i ≤ gd.num_bay_x → j ≤ gd.num_bay_y → k ≤ gd.num_floor →
      ∃ n ∈ create_nodes gd, n.ix = i ∧ n.iy = j ∧ n.iz = k ∧
        n.tag = get_node_tag_from_indices k j i gd.num_bay_x gd.num_bay_y) := by
  constructor
  · intro n hn
    unfold create_nodes at hn
    obtain ⟨q, hq, rfl⟩ := List.mem_map.1 hn
    obtain ⟨p, hp, htag⟩ := tagged_mem hq
    obtain ⟨t, k, j, i⟩ := q
    simp only at hp htag ⊢
    have hmem := node_triples_mem gd |>.1 (mem_of_getElem?_eq_some hp)
    obtain ⟨hk, hj, hi⟩ := hmem
    have henc := node_triples_getElem? gd hk hj hi
    have hplen : p < (node_triples gd).length := (List.getElem?_eq_some_iff.1 hp).1
    have hpe : p = k * ((gd.num_bay_y + 1) * (gd.num_bay_x + 1)) +
        (j * (gd.num_bay_x + 1) + i) :=
      List.getElem?_inj hplen (node_triples_nodup gd) (hp.trans henc.symm)
    simp only [get_node_tag_from_indices, htag, hpe]
    ring
  · intro i j k hi hj hk
    have henc := node_triples_getElem? gd (by omega : k < gd.num_floor + 1)
      (by omega : j < gd.num_bay_y + 1) (by omega : i < gd.num_bay_x + 1)
    have hcn := create_nodes_getElem? gd
      (k * ((gd.num_bay_y + 1) * (gd.num_bay_x + 1)) + (j * (gd.num_bay_x + 1) + i))
    rw [henc] at hcn
    refine ⟨_, mem_of_getElem?_eq_some hcn, rfl, rfl, rfl, ?_⟩
    simp only [get_node_tag_from_indices]
    ring

/-- Witness for C10 at Scenario A: the member direction at the very
first created node and the existence direction at index (1, 2, 1). -/
theorem claim_C10_witness :
    ({ tag := 1, ix := 0, iy := 0, iz := 0, x := 0, y := 0, z := 0,
       fixed := true } : SNode).tag =
      get_node_tag_from_indices 0 0 0 gdA.num_bay_x gdA.num_bay_y ∧
    ∃ n ∈ create_nodes gdA, n.ix = 1 ∧ n.iy = 2 ∧ n.iz = 1 ∧
      n.tag = get_node_tag_from_indices 1 2 1 gdA.num_bay_x gdA.num_bay_y :=
  ⟨(claim_C10_tag_formula_vs_loop gdA).1 _ (by decide),
   (claim_C10_tag_formula_vs_loop gdA).2 1 2 1 (by decide) (by decide) (by decide)⟩

/-- Claim C5: Scenario A (2×2 bays of width 3, one story): 18 nodes
(9 per level over 2 levels), 9 columns, 6 X-beams and 6 Y-beams
(21 elements total), 9 fixed nodes.  The beam generator is called as
`main` calls it: start tag 10 (after the 9 columns) and 18 total nodes. -/
theorem claim_C5_scenario_A :
    (create_nodes gdA).length = 18 ∧
    ((create_nodes gdA).filter fun n => n.iz == 0).length = 9 ∧
    ((create_nodes gdA).filter fun n => n.iz == 1).length = 9 ∧
    (create_columns gdA).length = 9 ∧
    ((create_beams gdA 10 18).filter fun b => b.dirX).length = 6 ∧
    ((create_beams gdA 10 18).filter fun b => !b.dirX).length = 6 ∧
    (create_columns gdA).length + (create_beams gdA 10 18).length = 21 ∧
    ((create_nodes gdA).filter fun n => n.fixed).length = 9 := by
  have htot : (node_triples gdA).length ≤ 18 := by decide
  have hx := beamX_accepted_eq gdA htot
  have hy := beamY_accepted_eq gdA htot
  refine ⟨by decide, by decide, by decide, by decide, ?_, ?_, ?_, by decide⟩ <;>
    (simp only [create_beams, hx, hy]; decide)

/-- Claim C6, evaluated at the failing input (Scenario C:
`bay_widths_x = [3]` with `num_bay_x = 2`, loaded from a configuration
file): `validate_geometry_data` does raise the length-mismatch error —
but `get_building_geometry_data` catches it, falls back to the default
3×3×3 configuration, and `main` proceeds: `create_nodes` creates that
model's 64 nodes.  Generation neither aborts with a `ConfigurationError`
nor creates zero nodes. -/
theorem claim_C6_error_swallowed :
    validate_geometry_data gdMismatch =
      .error "El numero de longitudes de vanos X no coincide con num_bay_x" ∧
    get_building_geometry_data_file gdMismatch = get_default_geometry_data ∧
    (load_and_create_nodes gdMismatch).length = 64 ∧
    (load_and_create_nodes gdMismatch).length ≠ 0 := by
  refine ⟨by rfl, by rfl, ?_, ?_⟩ <;> decide

/-- Counterexample to claim C8: node tags and element tags are NOT drawn
from a single shared counter: at Scenario A both the node generator and
the column generator assign the tag 1, so the combined tag list has a
duplicate — tags are not unique across the two kinds. -/
theorem claim_C8_counterexample :
    ¬ ((create_nodes gdA).map SNode.tag ++ (create_columns gdA).map Elem.tag).Nodup := by
  decide

/-- Claim C8 as amended: node tags and element tags are each drawn from
their own monotonically increasing counter starting at 1 (the element
counter is shared between columns and beams, advancing only on
creation), so tags are consecutive, unique and in creation order WITHIN
each kind — but not across kinds.  This holds for the standard and the
enhanced generator alike. -/
theorem claim_C8_per_kind_counters (gd : GeometryData) (start total : ℕ)
    (m : ℕ × ℕ × ℕ → Option ℕ) (cc : CantileverConfig) (pol : ColumnPolicy)
    (s : List ℕ) (sId : ℕ) :
    ((create_nodes gd).map SNode.tag = List.range' 1 (create_nodes gd).length ∧
     ((create_nodes gd).map SNode.tag).Nodup) ∧
    ((create_columns gd).map Elem.tag = List.range' 1 (create_columns gd).length ∧
     (create_beams gd start total).map SBeam.tag =
       List.range' start (create_beams gd start total).length) ∧
    ((enhanced_nodes gd cc).map Prod.fst =
       List.range' 1 (enhanced_nodes gd cc).length ∧
     (generate_enhanced_column_elements m gd cc pol).map EColumn.tag =
       List.range' 1 (generate_enhanced_column_elements m gd cc pol).length ∧
     (generate_enhanced_beam_elements s gd cc sId).map EBeam.tag =
       List.range' sId (generate_enhanced_beam_elements s gd cc sId).length) := by
  refine ⟨⟨create_nodes_tags gd, ?_⟩,
    ⟨create_columns_tags gd, create_beams_tags gd start total⟩,
    enhanced_nodes_tags gd cc, enhanced_columns_tags m gd cc pol,
    enhanced_beams_tags s gd cc sId⟩
  rw [create_nodes_tags gd]
  exact List.nodup_range' ..

/-- The first beam candidate of the enhanced generator at Scenario A
with a front cantilever — the X-beam between nodes 10 and 13 at level 1
— is accepted: both endpoints resolve and the orthogonality check holds
(the two keys share the row and level, so ΔY = ΔZ = 0). -/
theorem accept_first_cand_gdA_front :
    accept_beam_cand gdA ccFront ⟨(0, 0, 1), (1, 0, 1), .mainX⟩ =
      some (10, 13, .mainX) := by
  have h1 : node_mapping gdA ccFront (0, 0, 1) = some 10 := by decide
  have h2 : node_mapping gdA ccFront (1, 0, 1) = some 13 := by decide
  have hk1 : (enhanced_node_keys gdA ccFront)[(9 : ℕ)]? = some (0, 0, 1) := by decide
  have hk2 : (enhanced_node_keys gdA ccFront)[(12 : ℕ)]? = some (1, 0, 1) := by decide
  have hco1 : enh_coord gdA ccFront 10 =
      some (enh_key_coord gdA ccFront (0, 0, 1)) := by
    unfold enh_coord
    rw [if_neg (by omega)]
    norm_num [hk1]
  have hco2 : enh_coord gdA ccFront 13 =
      some (enh_key_coord gdA ccFront (1, 0, 1)) := by
    unfold enh_coord
    rw [if_neg (by omega)]
    norm_num [hk2]
  have hcheck : beam_check BeamCls.mainX.isXDir
      (enh_key_coord gdA ccFront (0, 0, 1))
      (enh_key_coord gdA ccFront (1, 0, 1)) = true := by
    norm_num [beam_check, BeamCls.isXDir, enh_key_coord]
  unfold accept_beam_cand
  rw [h1, h2]
  simp only
  rw [hco1, hco2]
  simp only
  rw [if_pos hcheck]

/-- The accepted beam list at Scenario A with a front cantilever starts
with the pair (10, 13) of kind mainX. -/
theorem accepted_beam_pairs_gdA_front_head :
    ∃ t, accepted_beam_pairs gdA ccFront = (10, 13, BeamCls.mainX) :: t := by
  have hh : ((List.range' 1 ((z_coords gdA).length - 1)).flatMap
      (level_beam_cands gdA ccFront)).head? =
      some ⟨(0, 0, 1), (1, 0, 1), .mainX⟩ := by decide
  have hcons := List.cons_head?_tail hh
  unfold accepted_beam_pairs
  rw [← hcons, List.filterMap_cons, accept_first_cand_gdA_front]
  exact ⟨_, rfl⟩

/-- Counterexample to claim C9: the output of an enhanced generation run
is NOT independent of the state a previous run leaves behind.  A fresh
engine gives the main beams section tag 2; an engine in which section 2
already exists (as any previous run leaves it) makes the `try/except`
fall back to tag 20, so the two runs' element tables differ. -/
theorem claim_C9_counterexample :
    enhanced_run [] gdA ccFront .uniform ≠ enhanced_run [2] gdA ccFront .uniform := by
  obtain ⟨t, ht⟩ := accepted_beam_pairs_gdA_front_head
  intro h
  have hb := congrArg RunOutput.beams h
  simp only [enhanced_run, generate_enhanced_beam_elements, ht, tagged,
    List.map_cons] at hb
  have hsect := congrArg (fun l => (l.head?.map EBeam.sect)) hb
  simp only [List.head?_cons, Option.map_some', sect_for, beam_section_tag] at hsect
  norm_num at hsect

/-- Claim C9 as amended: the node coordinates, the column elements, and
the beam endpoint pairs, tags and kinds are identical across any two
runs, whatever engine state each starts from; only the main-beam section
tag depends on the pre-existing state. -/
theorem claim_C9_state_independent_core (s s' : List ℕ) (gd : GeometryData)
    (cc : CantileverConfig) (pol : ColumnPolicy) :
    (enhanced_run s gd cc pol).nodes = (enhanced_run s' gd cc pol).nodes ∧
    (enhanced_run s gd cc pol).columns = (enhanced_run s' gd cc pol).columns ∧
    (enhanced_run s gd cc pol).beams.map (fun b => (b.tag, b.n1, b.n2, b.cls)) =
      (enhanced_run s' gd cc pol).beams.map fun b => (b.tag, b.n1, b.n2, b.cls) := by
  refine ⟨rfl, rfl, ?_⟩
  simp only [enhanced_run, generate_enhanced_beam_elements, List.map_map]
  rfl

/-- Claim C3, evaluated at the failing input (Scenario A with a front
cantilever): the boundary applier fixes exactly the nine level-0
core-footprint nodes — the count matches (numBayX+1)·(numBayY+1) and
every fixed node's key sits at level 0 — but its Python return value is
`None`, not the count: the function body has no `return` statement. -/
theorem claim_C3_fixes_core_but_returns_none :
    (apply_enhanced_boundary_conditions (node_mapping gdA ccFront)
      (extended_x_coords gdA ccFront) (extended_y_coords gdA ccFront)
      ccFront).fixed_nodes = [1, 2, 3, 4, 5, 6, 7, 8, 9] ∧
    (apply_enhanced_boundary_conditions (node_mapping gdA ccFront)
      (extended_x_coords gdA ccFront) (extended_y_coords gdA ccFront)
      ccFront).fixed_nodes.length = (gdA.num_bay_x + 1) * (gdA.num_bay_y + 1) ∧
    ((apply_enhanced_boundary_conditions (node_mapping gdA ccFront)
      (extended_x_coords gdA ccFront) (extended_y_coords gdA ccFront)
      ccFront).fixed_nodes.all fun n =>
        ((enhanced_node_keys gdA ccFront)[n - 1]?.map fun key => key.2.2) ==
          some 0) = true ∧
    (apply_enhanced_boundary_conditions (node_mapping gdA ccFront)
      (extended_x_coords gdA ccFront) (extended_y_coords gdA ccFront)
      ccFront).ret = none := by
  decide

/-- Claim C4, evaluated against the control flow of `main`: the value
handed to the boundary gate by the enhanced path is `None`, so even the
printed zero-restraints warning does not fire (`None == 0` is false in
Python), and `main` proceeds to slabs, loads and analysis for every
restraint count — also for an explicit under-count such as 5 < 9.  There
is no `BoundaryInsufficiencyError` and no abort anywhere. -/
theorem claim_C4_no_fatal_abort :
    main_boundary_gate (apply_enhanced_boundary_conditions (node_mapping gdA ccFront)
      (extended_x_coords gdA ccFront) (extended_y_coords gdA ccFront) ccFront).ret =
      { critical_warning := false, proceeds_to_analysis := true } ∧
    main_boundary_gate (some 5) =
      { critical_warning := false, proceeds_to_analysis := true } ∧
    (∀ r, (main_boundary_gate r).proceeds_to_analysis = true) :=
  ⟨by decide, by decide, fun _ => rfl⟩

/-- Counterexample to claim C7: no skip-count is exposed by the column
connector.  Its output (the created element ids and the next element id,
as the source returns them) cannot determine the number of skipped
candidates: with an empty index map, a 1-story and a 2-story
configuration give the identical output `([], 1)` while 4 and 8
candidates respectively were silently dropped. -/
theorem claim_C7_counterexample :
    ¬ ∃ f : List ℕ × ℕ → ℕ, ∀ m gd cc pol,
      f (enhanced_columns_output m gd cc pol) = skipped_column_candidates m gd cc := by
  rintro ⟨f, hf⟩
  have h1 := hf (fun _ => none) gdSmall1 ccNone .uniform
  have h2 := hf (fun _ => none) gdSmall2 ccNone .uniform
  have e1 : enhanced_columns_output (fun _ => none) gdSmall1 ccNone .uniform =
      ([], 1) := by decide
  have e2 : enhanced_columns_output (fun _ => none) gdSmall2 ccNone .uniform =
      ([], 1) := by decide
  have s1 : skipped_column_candidates (fun _ => none) gdSmall1 ccNone = 4 := by decide
  have s2 : skipped_column_candidates (fun _ => none) gdSmall2 ccNone = 8 := by decide
  rw [e1, s1] at h1
  rw [e2, s2] at h2
  omega

/-- Claim C7 as amended: a column candidate with a missing endpoint is
skipped without aborting — generation always completes, every created
element has both endpoints resolved through the index map, and created
plus skipped candidates account for the whole candidate space — but the
skip is silent: nothing is logged and no skip-count survives in the
output. -/
theorem claim_C7_silent_skip (m : ℕ × ℕ × ℕ → Option ℕ) (gd : GeometryData)
    (cc : CantileverConfig) (pol : ColumnPolicy) :
    (∀ e ∈ generate_enhanced_column_elements m gd cc pol,
      ∃ k1 k2, m k1 = some e.n1 ∧ m k2 = some e.n2) ∧
    (generate_enhanced_column_elements m gd cc pol).length +
      skipped_column_candidates m gd cc =
      ((z_coords gd).length - 1) *
        ((gd.bay_widths_x.length + 1) * (gd.bay_widths_y.length + 1)) := by
  constructor
  · intro e he
    unfold generate_enhanced_column_elements at he
    obtain ⟨q, hq, rfl⟩ := List.mem_map.1 he
    obtain ⟨p, hp, _⟩ := tagged_mem hq
    have hmem := mem_of_getElem?_eq_some hp
    obtain ⟨a, _, hg⟩ := List.mem_filterMap.1 hmem
    cases hm1 : m (a.2.1, a.2.2 + cc.yOffset, a.1) with
    | none => rw [hm1] at hg; simp at hg
    | some nb =>
        cases hm2 : m (a.2.1, a.2.2 + cc.yOffset, a.1 + 1) with
        | none => rw [hm1, hm2] at hg; simp at hg
        | some nt =>
            rw [hm1, hm2] at hg
            simp only [Option.some.injEq] at hg
            refine ⟨(a.2.1, a.2.2 + cc.yOffset, a.1),
              (a.2.1, a.2.2 + cc.yOffset, a.1 + 1), ?_, ?_⟩
            · rw [hm1]; simp [← hg]
            · rw [hm2]; simp [← hg]
  · unfold generate_enhanced_column_elements skipped_column_candidates
    rw [List.length_map, tagged_length]
    have hlen := filterMap_length_add_none
      (fun p : ℕ × ℕ × ℕ =>
        match m (p.2.1, p.2.2 + cc.yOffset, p.1), m (p.2.1, p.2.2 + cc.yOffset, p.1 + 1) with
        | some nb, some nt =>
            some (nb, nt, column_material_id pol (gd.bay_widths_x.length + 1)
              (gd.bay_widths_y.length + 1) p.2.1 p.2.2)
        | _, _ => none)
      ((List.range ((z_coords gd).length - 1)).flatMap fun k =>
        (List.range (gd.bay_widths_x.length + 1)).flatMap fun i =>
          (List.range (gd.bay_widths_y.length + 1)).map fun j => (k, i, j))
    rw [List.filter_congr (fun p _ => ?_)] at hlen
    · rw [hlen]
      rw [length_flatMap_range_const
        (c := (gd.bay_widths_x.length + 1) * (gd.bay_widths_y.length + 1))
        (fun mm => length_flatMap_range_const
          (c := gd.bay_widths_y.length + 1) (fun _ => by simp) _) _]
    · cases hm1 : m (p.2.1, p.2.2 + cc.yOffset, p.1) <;>
        cases hm2 : m (p.2.1, p.2.2 + cc.yOffset, p.1 + 1) <;>
        simp [hm1, hm2]

/-- Witness for the amended C7 at Scenario A without cantilevers: the
first created column has both endpoints in the index map, and the
created-plus-skipped balance holds. -/
theorem claim_C7_witness :
    (∃ k1 k2, node_mapping gdA ccNone k1 = some 1 ∧
      node_mapping gdA ccNone k2 = some 10) ∧
    (generate_enhanced_column_elements (node_mapping gdA ccNone) gdA ccNone
      .uniform).length +
      skipped_column_candidates (node_mapping gdA ccNone) gdA ccNone =
      ((z_coords gdA).length - 1) *
        ((gdA.bay_widths_x.length + 1) * (gdA.bay_widths_y.length + 1)) :=
  ⟨(claim_C7_silent_skip (node_mapping gdA ccNone) gdA ccNone .uniform).1
      { tag := 1, n1 := 1, n2 := 10, matId := 1 } (by decide),
   (claim_C7_silent_skip (node_mapping gdA ccNone) gdA ccNone .uniform).2⟩

/-! ## The cantilever node rule (claim C2) -/

theorem x_coords_length (gd : GeometryData) :
    (x_coords gd).length = gd.bay_widths_x.length + 1 := by simp [x_coords]

theorem y_coords_length (gd : GeometryData) :
    (y_coords gd).length = gd.bay_widths_y.length + 1 := by simp [y_coords]

theorem z_coords_length (gd : GeometryData) :
    (z_coords gd).length = gd.story_heights.length + 1 := by simp [z_coords]

theorem extended_x_length (gd : GeometryData) (cc : CantileverConfig) :
    (extended_x_coords gd cc).length =
      (x_coords gd).length + (if cc.front.isSome then 1 else 0) := by
  cases hf : cc.front <;> simp [extended_x_coords, hf]

theorem extended_y_length (gd : GeometryData) (cc : CantileverConfig) :
    (extended_y_coords gd cc).length =
      (y_coords gd).length + (if cc.left.isSome then 1 else 0) +
        (if cc.right.isSome then 1 else 0) := by
  cases hl : cc.left <;> cases hr : cc.right <;>
    simp [extended_y_coords, hl, hr] <;> omega

theorem should_create_node_zero (cc : CantileverConfig) (nx ny nex ney i j : ℕ) :
    should_create_node cc nx ny nex ney i j 0 =
      !(decide (i ≥ nx) ||
        decide ((j : ℤ) - (if cc.left.isSome then 1 else 0) ≥ (ny : ℤ)) ||
        decide ((j : ℤ) - (if cc.left.isSome then 1 else 0) < 0)) := rfl

theorem should_create_node_pos (cc : CantileverConfig) (nx ny nex ney i j k : ℕ)
    (hk : 1 ≤ k) :
    should_create_node cc nx ny nex ney i j k =
      (if cc.left.isSome && (j == 0) then decide (i < nx)
       else if cc.front.isSome && (i == nex - 1) then
         decide ((j : ℤ) - (if cc.left.isSome then 1 else 0) < (ny : ℤ))
       else if cc.right.isSome && (j == ney - 1) then decide (i < nx)
       else decide (i < nx) &&
         decide ((j : ℤ) - (if cc.left.isSome then 1 else 0) < (ny : ℤ))) := by
  match k, hk with
  | 1, _ => rfl
  | n + 2, _ => rfl

/-- Claim C2: for a configuration with at least one active cantilever,
the node-existence rule of `generate_enhanced_nodes` creates no
cantilever-footprint node at level 0, uses one common rule at every
level k ≥ 1, gives the affected axis exactly one extra coordinate, and
populates every coordinate of both axes from level 1 upward. -/
theorem claim_C2_cantilever_levels (gd : GeometryData) (cc : CantileverConfig)
    (hact : cc.front.isSome ∨ cc.right.isSome ∨ cc.left.isSome) :
    enhanced_cantilever_level_rule gd cc := by
  have hnx := x_coords_length gd
  have hny := y_coords_length gd
  have hex := extended_x_length gd cc
  have hey := extended_y_length gd cc
  have hxle : (x_coords gd).length ≤ (extended_x_coords gd cc).length := by
    cases hf : cc.front <;> simp [hf] at hex <;> omega
  have hyoffle : (y_coords gd).length + cc.yOffset ≤ (extended_y_coords gd cc).length := by
    unfold CantileverConfig.yOffset
    cases hl : cc.left <;> cases hr : cc.right <;> simp [hl, hr] at hey ⊢ <;> omega
  have hnex1 : 1 ≤ (extended_x_coords gd cc).length := by omega
  have hney1 : 1 ≤ (extended_y_coords gd cc).length := by omega
  have heff : (cc.yOffset : ℤ) - (if cc.left.isSome then 1 else 0) = 0 := by
    unfold CantileverConfig.yOffset
    cases hl : cc.left <;> simp [hl]
  refine ⟨?_, ?_, ⟨hex, hey⟩, ?_, ?_⟩
  · -- (a) level 0 is exactly the shifted core footprint
    intro i j
    rw [should_create_node_zero]
    unfold CantileverConfig.yOffset
    cases hl : cc.left <;> simp [hl] <;> omega
  · -- (b) one rule for all levels ≥ 1
    intro i j k hk
    rw [should_create_node_pos cc _ _ _ _ i j k hk,
      should_create_node_pos cc _ _ _ _ i j 1 le_rfl]
  · -- (d) every coordinate of both axes is populated at levels ≥ 1
    intro k hk
    constructor
    · intro i hi
      refine ⟨cc.yOffset, by omega, ?_⟩
      rw [should_create_node_pos cc _ _ _ _ _ _ k hk]
      have hcond1 : (cc.left.isSome && (cc.yOffset == 0)) = false := by
        cases hl : cc.left <;> simp [CantileverConfig.yOffset, hl]
      rw [hcond1]
      simp only [Bool.false_eq_true, if_false]
      rw [heff]
      by_cases bc2 : (cc.front.isSome &&
          (i == (extended_x_coords gd cc).length - 1)) = true
      · rw [if_pos bc2]
        simp only [decide_eq_true_eq]
        omega
      · rw [if_neg bc2]
        have hcond3 : (cc.right.isSome &&
            (cc.yOffset == (extended_y_coords gd cc).length - 1)) = false := by
          unfold CantileverConfig.yOffset
          cases hl : cc.left <;> cases hr : cc.right <;>
            simp [hl, hr] at hey ⊢ <;> omega
        rw [hcond3]
        simp only [Bool.false_eq_true, if_false, Bool.and_eq_true, decide_eq_true_eq]
        refine ⟨?_, by omega⟩
        cases hf : cc.front with
        | none => simp [hf] at hex; omega
        | some f =>
            have hine : i ≠ (extended_x_coords gd cc).length - 1 := by
              intro hcontr
              exact bc2 (by simp [hf, hcontr])
            simp [hf] at hex
            omega
    · intro j hj
      refine ⟨0, by omega, ?_⟩
      rw [should_create_node_pos cc _ _ _ _ _ _ k hk]
      by_cases bc1 : (cc.left.isSome && (j == 0)) = true
      · rw [if_pos bc1]
        simp only [decide_eq_true_eq]
        omega
      · rw [if_neg bc1]
        have bc2 : (cc.front.isSome &&
            ((0 : ℕ) == (extended_x_coords gd cc).length - 1)) = false := by
          cases hf : cc.front with
          | none => simp [hf]
          | some f => simp [hf] at hex ⊢; omega
        rw [bc2]
        simp only [Bool.false_eq_true, if_false]
        by_cases bc3 : (cc.right.isSome &&
            (j == (extended_y_coords gd cc).length - 1)) = true
        · rw [if_pos bc3]
          simp only [decide_eq_true_eq]
          omega
        · rw [if_neg bc3]
          simp only [Bool.and_eq_true, decide_eq_true_eq]
          refine ⟨by omega, ?_⟩
          cases hl : cc.left <;> cases hr : cc.right <;>
            simp [hl, hr] at hey bc1 bc3 ⊢ <;> omega
  · -- (e) created nodes stay inside the extended index ranges
    intro i j k h
    cases k with
    | zero =>
        rw [should_create_node_zero] at h
        have hyoffle' := hyoffle
        unfold CantileverConfig.yOffset at hyoffle'
        cases hl : cc.left <;>
          simp [hl] at h hyoffle' <;> omega
    | succ n =>
        rw [should_create_node_pos cc _ _ _ _ _ _ (n + 1) (by omega)] at h
        by_cases bc1 : (cc.left.isSome && (j == 0)) = true
        · rw [if_pos bc1] at h
          simp only [decide_eq_true_eq] at h
          simp only [Bool.and_eq_true, beq_iff_eq] at bc1
          omega
        · rw [if_neg bc1] at h
          by_cases bc2 : (cc.front.isSome &&
              (i == (extended_x_coords gd cc).length - 1)) = true
          · rw [if_pos bc2] at h
            simp only [decide_eq_true_eq] at h
            simp only [Bool.and_eq_true, beq_iff_eq] at bc2
            have hyoffle' := hyoffle
            unfold CantileverConfig.yOffset at hyoffle'
            cases hl : cc.left <;> simp [hl] at h hyoffle' <;> omega
          · rw [if_neg bc2] at h
            by_cases bc3 : (cc.right.isSome &&
                (j == (extended_y_coords gd cc).length - 1)) = true
            · rw [if_pos bc3] at h
              simp only [decide_eq_true_eq] at h
              simp only [Bool.and_eq_true, beq_iff_eq] at bc3
              omega
            · rw [if_neg bc3] at h
              simp only [Bool.and_eq_true, decide_eq_true_eq] at h
              have hyoffle' := hyoffle
              unfold CantileverConfig.yOffset at hyoffle'
              cases hl : cc.left <;>
                simp [hl] at h hyoffle' <;> omega

/-- Witness for C2 at Scenario A with a front cantilever. -/
theorem claim_C2_witness :
    (ccFront.front.isSome ∨ ccFront.right.isSome ∨ ccFront.left.isSome) ∧
    enhanced_cantilever_level_rule gdA ccFront :=
  ⟨Or.inl (by decide), claim_C2_cantilever_levels gdA ccFront (Or.inl (by decide))⟩

/-! ## Monotone coordinate sequences (for claim C1) -/

theorem chain'_cum (ws : List ℚ) (hpos : ∀ w ∈ ws, 0 < w) :
    List.Chain' (· < ·) ((List.range (ws.length + 1)).map fun n => sumTake ws n) := by
  rw [List.chain'_map]
  have h := (List.chain'_range_succ (fun a b => sumTake ws a < sumTake ws b) ws.length).2
  exact h fun m hm => sumTake_lt_succ hm hpos

theorem chain'_getD_lt {l : List ℚ} (h : List.Chain' (· < ·) l) {i : ℕ}
    (hi : i + 1 < l.length) : l.getD i 0 < l.getD (i + 1) 0 := by
  have hr := List.chain'_iff_get.1 h i (by omega)
  rw [List.getD_eq_getElem?_getD, List.getD_eq_getElem?_getD,
    List.getElem?_eq_getElem (by omega : i < l.length),
    List.getElem?_eq_getElem (by omega : i + 1 < l.length)]
  simpa [List.get_eq_getElem] using hr

theorem x_coords_getLast? (gd : GeometryData) :
    (x_coords gd).getLast? = some gd.bay_widths_x.sum := by
  unfold x_coords
  rw [List.getLast?_eq_getElem?]
  simp only [List.length_map, List.length_range]
  rw [List.getElem?_map, List.getElem?_range (by omega)]
  simp [sumTake_full]

theorem y_coords_getLast? (gd : GeometryData) :
    (y_coords gd).getLast? = some gd.bay_widths_y.sum := by
  unfold y_coords
  rw [List.getLast?_eq_getElem?]
  simp only [List.length_map, List.length_range]
  rw [List.getElem?_map, List.getElem?_range (by omega)]
  simp [sumTake_full]

theorem y_coords_head? (gd : GeometryData) : (y_coords gd).head? = some 0 := by
  unfold y_coords
  rw [List.head?_map]
  have : (List.range (gd.bay_widths_y.length + 1)).head? = some 0 := by
    rw [List.head?_eq_getElem?, List.getElem?_range (by omega)]
  rw [this]
  rfl

theorem extended_x_chain (gd : GeometryData) (cc : CantileverConfig)
    (hp : ∀ w ∈ gd.bay_widths_x, 0 < w) (hf : option_len_pos cc.front) :
    List.Chain' (· < ·) (extended_x_coords gd cc) := by
  unfold extended_x_coords
  cases hfr : cc.front with
  | none => simpa using chain'_cum gd.bay_widths_x hp
  | some f =>
      rw [List.chain'_append]
      refine ⟨chain'_cum gd.bay_widths_x hp, List.chain'_singleton _, ?_⟩
      intro a ha b hb
      rw [x_coords_getLast?] at ha
      simp only [List.head?_cons, Option.mem_def, Option.some.injEq] at ha hb
      rw [hfr] at hf
      unfold option_len_pos at hf
      subst ha; subst hb
      linarith

theorem extended_y_chain (gd : GeometryData) (cc : CantileverConfig)
    (hp : ∀ w ∈ gd.bay_widths_y, 0 < w) (hr : option_len_pos cc.right)
    (hl : option_len_pos cc.left) :
    List.Chain' (· < ·) (extended_y_coords gd cc) := by
  have hychain : List.Chain' (· < ·) (y_coords gd) := chain'_cum gd.bay_widths_y hp
  have hLy : List.Chain' (· < ·)
      ((match cc.left with
        | some lf => [0 - lf.length]
        | none => []) ++ y_coords gd) := by
    cases hle : cc.left with
    | none => simpa using hychain
    | some lf =>
        rw [List.chain'_append]
        refine ⟨List.chain'_singleton _, hychain, ?_⟩
        intro a ha b hb
        rw [y_coords_head?] at hb
        simp only [List.getLast?_singleton, Option.mem_def, Option.some.injEq] at ha hb
        rw [hle] at hl
        unfold option_len_pos at hl
        subst ha; subst hb
        linarith
  unfold extended_y_coords
  cases hri : cc.right with
  | none => simpa using hLy
  | some r =>
      rw [List.chain'_append]
      refine ⟨hLy, List.chain'_singleton _, ?_⟩
      intro a ha b hb
      rw [List.getLast?_append, y_coords_getLast?] at ha
      simp only [Option.or_some, Option.mem_def, Option.some.injEq,
        List.head?_cons] at ha hb
      rw [hri] at hr
      unfold option_len_pos at hr
      subst ha; subst hb
      linarith

/-- A successful index-map lookup gives the coordinates of the looked-up
key through `ops.nodeCoord`, and the key is one of the created keys. -/
theorem node_mapping_coord (gd : GeometryData) (cc : CantileverConfig)
    {key : ℕ × ℕ × ℕ} {t : ℕ} (h : node_mapping gd cc key = some t) :
    enh_coord gd cc t = some (enh_key_coord gd cc key) ∧
      key ∈ enhanced_node_keys gd cc := by
  unfold node_mapping at h
  rw [Option.map_eq_some'] at h
  obtain ⟨p, hp, rfl⟩ := h
  have hkey := idxOf?_getElem? hp
  constructor
  · unfold enh_coord
    rw [if_neg (by omega)]
    simp [hkey]
  · exact mem_of_getElem?_eq_some hkey

/-- Created keys lie inside the extended index ranges. -/
theorem enhanced_node_keys_bounds (gd : GeometryData) (cc : CantileverConfig)
    {key : ℕ × ℕ × ℕ} (h : key ∈ enhanced_node_keys gd cc) :
    key.1 < (extended_x_coords gd cc).length ∧
    key.2.1 < (extended_y_coords gd cc).length ∧
    key.2.2 < (z_coords gd).length := by
  unfold enhanced_node_keys at h
  simp only [List.mem_flatMap, List.mem_filterMap, List.mem_range] at h
  obtain ⟨k, hk, i, hi, j, hj, hcond⟩ := h
  by_cases hs : should_create_node cc (x_coords gd).length (y_coords gd).length
      (extended_x_coords gd cc).length (extended_y_coords gd cc).length i j k = true
  · rw [if_pos hs] at hcond
    obtain rfl := Option.some.inj hcond
    exact ⟨hi, hj, hk⟩
  · rw [if_neg hs] at hcond
    exact absurd hcond (by simp)

/-- Closed-form coordinates of the node with the standard formula tag. -/
theorem nodeCoordStd_decode (gd : GeometryData) {k j i : ℕ}
    (hk : k < gd.num_floor + 1) (hj : j < gd.num_bay_y + 1) (hi : i < gd.num_bay_x + 1) :
    nodeCoordStd gd (1 + k * ((gd.num_bay_x + 1) * (gd.num_bay_y + 1)) +
      j * (gd.num_bay_x + 1) + i) =
      some (sumTake gd.bay_widths_x i, sumTake gd.bay_widths_y j,
        sumTake gd.story_heights k) := by
  have hcomm : (gd.num_bay_x + 1) * (gd.num_bay_y + 1) =
      (gd.num_bay_y + 1) * (gd.num_bay_x + 1) := Nat.mul_comm _ _
  have hb1 : j * (gd.num_bay_x + 1) + i <
      (gd.num_bay_y + 1) * (gd.num_bay_x + 1) := by
    calc j * (gd.num_bay_x + 1) + i < (j + 1) * (gd.num_bay_x + 1) := by
          rw [Nat.succ_mul]; omega
      _ ≤ (gd.num_bay_y + 1) * (gd.num_bay_x + 1) := Nat.mul_le_mul_right _ hj
  have hkm : k * ((gd.num_bay_y + 1) * (gd.num_bay_x + 1)) ≤
      gd.num_floor * ((gd.num_bay_y + 1) * (gd.num_bay_x + 1)) :=
    Nat.mul_le_mul_right _ (by omega)
  have ht1 : 1 + k * ((gd.num_bay_x + 1) * (gd.num_bay_y + 1)) +
      j * (gd.num_bay_x + 1) + i ≤ (node_triples gd).length := by
    rw [node_triples_length, hcomm]
    calc 1 + k * ((gd.num_bay_y + 1) * (gd.num_bay_x + 1)) +
          j * (gd.num_bay_x + 1) + i
        = (j * (gd.num_bay_x + 1) + i + 1) +
          k * ((gd.num_bay_y + 1) * (gd.num_bay_x + 1)) := by ring
      _ ≤ (gd.num_bay_y + 1) * (gd.num_bay_x + 1) +
          gd.num_floor * ((gd.num_bay_y + 1) * (gd.num_bay_x + 1)) :=
          Nat.add_le_add hb1 hkm
      _ = (gd.num_floor + 1) * ((gd.num_bay_y + 1) * (gd.num_bay_x + 1)) := by ring
  have hdec : (node_triples gd)[1 + k * ((gd.num_bay_x + 1) * (gd.num_bay_y + 1)) +
      j * (gd.num_bay_x + 1) + i - 1]? = some (k, j, i) := by
    have harith : 1 + k * ((gd.num_bay_x + 1) * (gd.num_bay_y + 1)) +
        j * (gd.num_bay_x + 1) + i - 1 =
        k * ((gd.num_bay_y + 1) * (gd.num_bay_x + 1)) +
        (j * (gd.num_bay_x + 1) + i) := by
      rw [hcomm]; omega
    rw [harith]
    exact node_triples_getElem? gd hk hj hi
  rw [nodeCoordStd_eq gd (by omega) ht1, hdec]
  rfl

/-- Exhaustive description of the candidates the per-level beam loops of
the enhanced generator propose. -/
theorem level_beam_cands_cases (gd : GeometryData) (cc : CantileverConfig) (k : ℕ)
    {c : BeamCand} (h : c ∈ level_beam_cands gd cc k) :
    (∃ i j, i < gd.bay_widths_x.length ∧ j < gd.bay_widths_y.length + 1 ∧
      c = ⟨(i, j + cc.yOffset, k), (i + 1, j + cc.yOffset, k), .mainX⟩) ∨
    (∃ i j, i < gd.bay_widths_x.length + 1 ∧ j < gd.bay_widths_y.length ∧
      c = ⟨(i, j + cc.yOffset, k), (i, j + cc.yOffset + 1, k), .mainY⟩) ∨
    (cc.front.isSome = true ∧ ∃ j, j < gd.bay_widths_y.length + 1 ∧
      c = ⟨(gd.bay_widths_x.length, j + cc.yOffset, k),
           ((extended_x_coords gd cc).length - 1, j + cc.yOffset, k), .frontConn⟩) ∨
    (cc.front.isSome = true ∧ ∃ j, j < gd.bay_widths_y.length ∧
      c = ⟨((extended_x_coords gd cc).length - 1, j + cc.yOffset, k),
           ((extended_x_coords gd cc).length - 1, j + cc.yOffset + 1, k),
           .frontBorder⟩) ∨
    (cc.right.isSome = true ∧ ∃ i, i < gd.bay_widths_x.length ∧
      c = ⟨(i, (extended_y_coords gd cc).length - 1, k),
           (i + 1, (extended_y_coords gd cc).length - 1, k), .rightBorder⟩) ∨
    (cc.left.isSome = true ∧ ∃ i, i < gd.bay_widths_x.length ∧
      c = ⟨(i, 0, k), (i + 1, 0, k), .leftBorder⟩) := by
  unfold level_beam_cands at h
  simp only [List.mem_append] at h
  rcases h with ((((h | h) | h) | h) | h)
  · left
    simp only [List.mem_flatMap, List.mem_map, List.mem_range] at h
    obtain ⟨i, hi, j, hj, rfl⟩ := h
    exact ⟨i, j, by omega, hj, rfl⟩
  · right; left
    simp only [List.mem_flatMap, List.mem_map, List.mem_range] at h
    obtain ⟨i, hi, j, hj, rfl⟩ := h
    exact ⟨i, j, hi, by omega, rfl⟩
  · by_cases hf : cc.front.isSome = true
    · rw [if_pos hf, List.mem_append] at h
      rcases h with h | h
      · right; right; left
        simp only [List.mem_map, List.mem_range] at h
        obtain ⟨j, hj, rfl⟩ := h
        exact ⟨hf, j, hj, by simp⟩
      · right; right; right; left
        by_cases hoy : 1 < gd.bay_widths_y.length + 1
        · rw [if_pos hoy] at h
          simp only [List.mem_map, List.mem_range] at h
          obtain ⟨j, hj, rfl⟩ := h
          exact ⟨hf, j, by omega, rfl⟩
        · rw [if_neg hoy] at h
          simp at h
    · rw [if_neg hf] at h
      simp at h
  · by_cases hr : cc.right.isSome = true
    · rw [if_pos hr] at h
      right; right; right; right; left
      simp only [List.mem_map, List.mem_range] at h
      obtain ⟨i, hi, rfl⟩ := h
      exact ⟨hr, i, by omega, rfl⟩
    · rw [if_neg hr] at h
      simp at h
  · by_cases hl : cc.left.isSome = true
    · rw [if_pos hl] at h
      right; right; right; right; right
      simp only [List.mem_map, List.mem_range] at h
      obtain ⟨i, hi, rfl⟩ := h
      exact ⟨hl, i, by omega, rfl⟩
    · rw [if_neg hl] at h
      simp at h

/-- Every beam the enhanced generator materializes satisfies the
orthogonality invariant. -/
theorem enhanced_beam_ortho (gd : GeometryData) (cc : CantileverConfig)
    (hp : gd.positive) (hcp : cc.positive) (s : List ℕ) (sId : ℕ) :
    ∀ b ∈ generate_enhanced_beam_elements s gd cc sId,
      ∃ c1 c2, enh_coord gd cc b.n1 = some c1 ∧ enh_coord gd cc b.n2 = some c2 ∧
        ortho_pair c1 c2 := by
  obtain ⟨hpx, hpy, hpz⟩ := hp
  obtain ⟨hfp, hrp, hlp⟩ := hcp
  have hxchain := extended_x_chain gd cc hpx hfp
  have hychain := extended_y_chain gd cc hpy hrp hlp
  have hnx := x_coords_length gd
  have hny := y_coords_length gd
  have hex := extended_x_length gd cc
  have hey := extended_y_length gd cc
  have hxle : (x_coords gd).length ≤ (extended_x_coords gd cc).length := by
    cases hf : cc.front <;> simp [hf] at hex ⊢ <;> omega
  have hyoffle : (y_coords gd).length + cc.yOffset ≤
      (extended_y_coords gd cc).length := by
    unfold CantileverConfig.yOffset
    cases hl : cc.left <;> cases hr : cc.right <;> simp [hl, hr] at hey ⊢ <;> omega
  intro b hb
  unfold generate_enhanced_beam_elements at hb
  obtain ⟨q, hq, rfl⟩ := List.mem_map.1 hb
  obtain ⟨tq, pr⟩ := q
  obtain ⟨p, hp', _⟩ := tagged_mem hq
  have hmem := mem_of_getElem?_eq_some hp'
  unfold accepted_beam_pairs at hmem
  obtain ⟨cand, hcand, hacc⟩ := List.mem_filterMap.1 hmem
  obtain ⟨k, hk, hcl⟩ := List.mem_flatMap.1 hcand
  unfold accept_beam_cand at hacc
  cases hm1 : node_mapping gd cc cand.key1 with
  | none => rw [hm1] at hacc; simp at hacc
  | some n1 =>
  cases hm2 : node_mapping gd cc cand.key2 with
  | none => rw [hm1, hm2] at hacc; simp at hacc
  | some n2 =>
  rw [hm1, hm2] at hacc
  obtain ⟨hc1eq, hk1mem⟩ := node_mapping_coord gd cc hm1
  obtain ⟨hc2eq, hk2mem⟩ := node_mapping_coord gd cc hm2
  dsimp only at hacc
  rw [hc1eq, hc2eq] at hacc
  rw [show (match some (enh_key_coord gd cc cand.key1),
        some (enh_key_coord gd cc cand.key2) with
      | some c1, some c2 =>
          if beam_check cand.cls.isXDir c1 c2 = true then
            some (n1, n2, cand.cls) else none
      | _, _ => none) =
      (if beam_check cand.cls.isXDir (enh_key_coord gd cc cand.key1)
          (enh_key_coord gd cc cand.key2) = true then
        some (n1, n2, cand.cls) else none) from rfl] at hacc
  by_cases hchk : beam_check cand.cls.isXDir (enh_key_coord gd cc cand.key1)
      (enh_key_coord gd cc cand.key2) = true
  · rw [if_pos hchk] at hacc
    have hpr := (Option.some.inj hacc).symm
    subst hpr
    refine ⟨enh_key_coord gd cc cand.key1, enh_key_coord gd cc cand.key2,
      hc1eq, hc2eq, ?_⟩
    rcases level_beam_cands_cases gd cc k hcl with
      ⟨i, j, hi, hj, rfl⟩ | ⟨i, j, hi, hj, rfl⟩ | ⟨hf, j, hj, rfl⟩ |
      ⟨hf, j, hj, rfl⟩ | ⟨hr, i, hi, rfl⟩ | ⟨hl, i, hi, rfl⟩ <;>
      simp only [enh_key_coord]
    · -- main X beam: x indices i, i+1
      left
      have hb : i + 1 < (extended_x_coords gd cc).length := by omega
      refine ⟨ne_of_lt (chain'_getD_lt hxchain hb), ?_, ?_⟩ <;>
        (rw [sub_self, abs_zero]; norm_num)
    · -- main Y beam: y indices j+off, j+off+1
      right
      have hb : j + cc.yOffset + 1 < (extended_y_coords gd cc).length := by
        unfold CantileverConfig.yOffset at hyoffle ⊢; omega
      refine ⟨ne_of_lt (chain'_getD_lt hychain hb), ?_, ?_⟩ <;>
        (rw [sub_self, abs_zero]; norm_num)
    · -- front connector beam: x indices lenx, nex-1 = lenx+1
      left
      rw [if_pos hf] at hex
      have hrw : (extended_x_coords gd cc).length - 1 = gd.bay_widths_x.length + 1 := by
        omega
      rw [hrw]
      have hb : gd.bay_widths_x.length + 1 < (extended_x_coords gd cc).length := by
        omega
      refine ⟨ne_of_lt (chain'_getD_lt hxchain hb), ?_, ?_⟩ <;>
        (rw [sub_self, abs_zero]; norm_num)
    · -- front border beam: y indices j+off, j+off+1
      right
      have hb : j + cc.yOffset + 1 < (extended_y_coords gd cc).length := by
        unfold CantileverConfig.yOffset at hyoffle ⊢; omega
      refine ⟨ne_of_lt (chain'_getD_lt hychain hb), ?_, ?_⟩ <;>
        (rw [sub_self, abs_zero]; norm_num)
    · -- right border beam: x indices i, i+1
      left
      have hb : i + 1 < (extended_x_coords gd cc).length := by omega
      refine ⟨ne_of_lt (chain'_getD_lt hxchain hb), ?_, ?_⟩ <;>
        (rw [sub_self, abs_zero]; norm_num)
    · -- left border beam: x indices i, i+1
      left
      have hb : i + 1 < (extended_x_coords gd cc).length := by omega
      refine ⟨ne_of_lt (chain'_getD_lt hxchain hb), ?_, ?_⟩ <;>
        (rw [sub_self, abs_zero]; norm_num)
  · rw [if_neg hchk] at hacc
    simp at hacc

/-- Every beam the standard generator materializes satisfies the
orthogonality invariant. -/
theorem std_beam_ortho (gd : GeometryData) (hc : gd.consistent) (hp : gd.positive)
    (start : ℕ) :
    ∀ b ∈ create_beams gd start (create_nodes gd).length,
      ∃ c1 c2, nodeCoordStd gd b.n1 = some c1 ∧ nodeCoordStd gd b.n2 = some c2 ∧
        ortho_pair c1 c2 := by
  obtain ⟨hcx, hcy, hcz⟩ := hc
  obtain ⟨hpx, hpy, hpz⟩ := hp
  have htot : (node_triples gd).length ≤ (create_nodes gd).length := by
    rw [create_nodes_length]
  intro b hb
  unfold create_beams at hb
  obtain ⟨q, hq, rfl⟩ := List.mem_map.1 hb
  obtain ⟨tq, pr⟩ := q
  obtain ⟨p, hp', _⟩ := tagged_mem hq
  have hmem := mem_of_getElem?_eq_some hp'
  rw [List.mem_append] at hmem
  rcases hmem with hmem | hmem
  · rw [beamX_accepted_eq gd htot] at hmem
    obtain ⟨⟨k, j, i⟩, hcmem, heq⟩ := List.mem_map.1 hmem
    obtain ⟨hk1, hk2, hj, hi⟩ := (beamX_cands_mem gd).1 hcmem
    dsimp only at hk1 hk2 hj hi
    subst heq
    dsimp only
    have hd1 := nodeCoordStd_decode gd (k := k) (j := j) (i := i)
      (by omega) hj (by omega)
    have hd2 := nodeCoordStd_decode gd (k := k) (j := j) (i := i + 1)
      (by omega) hj (by omega)
    have harr : 1 + k * ((gd.num_bay_x + 1) * (gd.num_bay_y + 1)) +
        j * (gd.num_bay_x + 1) + i + 1 =
        1 + k * ((gd.num_bay_x + 1) * (gd.num_bay_y + 1)) +
        j * (gd.num_bay_x + 1) + (i + 1) := by omega
    refine ⟨_, _, hd1, by rw [harr]; exact hd2, ?_⟩
    left
    have hlt : sumTake gd.bay_widths_x i < sumTake gd.bay_widths_x (i + 1) :=
      sumTake_lt_succ (by omega) hpx
    exact ⟨ne_of_lt hlt, by rw [sub_self, abs_zero]; norm_num,
      by rw [sub_self, abs_zero]; norm_num⟩
  · rw [beamY_accepted_eq gd htot] at hmem
    obtain ⟨⟨k, i, j⟩, hcmem, heq⟩ := List.mem_map.1 hmem
    obtain ⟨hk1, hk2, hi, hj⟩ := (beamY_cands_mem gd).1 hcmem
    dsimp only at hk1 hk2 hi hj
    subst heq
    dsimp only
    have hd1 := nodeCoordStd_decode gd (k := k) (j := j) (i := i)
      (by omega) (by omega) hi
    have hd2 := nodeCoordStd_decode gd (k := k) (j := j + 1) (i := i)
      (by omega) (by omega) hi
    have hsm : (j + 1) * (gd.num_bay_x + 1) =
        j * (gd.num_bay_x + 1) + (gd.num_bay_x + 1) := Nat.succ_mul j _
    have harr : 1 + k * ((gd.num_bay_x + 1) * (gd.num_bay_y + 1)) +
        j * (gd.num_bay_x + 1) + i + (gd.num_bay_x + 1) =
        1 + k * ((gd.num_bay_x + 1) * (gd.num_bay_y + 1)) +
        (j + 1) * (gd.num_bay_x + 1) + i := by omega
    refine ⟨_, _, hd1, by rw [harr]; exact hd2, ?_⟩
    right
    have hlt : sumTake gd.bay_widths_y j < sumTake gd.bay_widths_y (j + 1) :=
      sumTake_lt_succ (by omega) hpy
    exact ⟨ne_of_lt hlt, by rw [sub_self, abs_zero]; norm_num,
      by rw [sub_self, abs_zero]; norm_num⟩

/-- Claim C1: under a consistent configuration with positive bay widths,
story heights and cantilever lengths, every beam element either
generator actually creates — standard X/Y beams, enhanced main beams,
cantilever connector beams and border beams — connects two nodes that
differ in exactly one horizontal axis, agree within the tolerance 0.001
in the other horizontal axis and agree within 0.001 in elevation Z.
Since every materialized element satisfies the invariant, a candidate
pair that violates it is never materialized (it is skipped by the
orthogonality check). -/
theorem claim_C1_beam_orthogonality (gd : GeometryData) (cc : CantileverConfig)
    (hc : gd.consistent) (hp : gd.positive) (hcp : cc.positive) :
    (∀ start, ∀ b ∈ create_beams gd start (create_nodes gd).length,
      ∃ c1 c2, nodeCoordStd gd b.n1 = some c1 ∧ nodeCoordStd gd b.n2 = some c2 ∧
        ortho_pair c1 c2) ∧
    (∀ s sId, ∀ b ∈ generate_enhanced_beam_elements s gd cc sId,
      ∃ c1 c2, enh_coord gd cc b.n1 = some c1 ∧ enh_coord gd cc b.n2 = some c2 ∧
        ortho_pair c1 c2) :=
  ⟨fun start => std_beam_ortho gd hc hp start,
   fun s sId => enhanced_beam_ortho gd cc hp hcp s sId⟩

/-- Witness for C1 at Scenario A with a front cantilever: the invariant
applied to the concrete beam between nodes 10 and 13 of the enhanced
generator and to the first standard beam. -/
theorem claim_C1_witness :
    (gdA.consistent ∧ gdA.positive ∧ ccFront.positive) ∧
    (∀ start, ∀ b ∈ create_beams gdA start (create_nodes gdA).length,
      ∃ c1 c2, nodeCoordStd gdA b.n1 = some c1 ∧ nodeCoordStd gdA b.n2 = some c2 ∧
        ortho_pair c1 c2) ∧
    (∀ s sId, ∀ b ∈ generate_enhanced_beam_elements s gdA ccFront sId,
      ∃ c1 c2, enh_coord gdA ccFront b.n1 = some c1 ∧
        enh_coord gdA ccFront b.n2 = some c2 ∧ ortho_pair c1 c2) :=
  ⟨⟨by decide, by decide,
    by norm_num [CantileverConfig.positive, option_len_pos, ccFront]⟩,
   claim_C1_beam_orthogonality gdA ccFront (by decide) (by decide)
     (by norm_num [CantileverConfig.positive, option_len_pos, ccFront])⟩

end Tesis
